import Mathlib

/-!
Verification of the IndCAD 2D drafting kernel against its specification.

The JavaScript source is embedded shallowly: numbers are modelled as exact
real numbers (`ℝ`); `Math.sqrt`, `Math.atan2`, `Math.cos`, … become their
exact mathematical counterparts.  Over an exact field every value is finite,
so `isFinite(x)` tests in the source are identically true and are dropped in
the real-valued embedding; the non-finite failure mode is modelled separately
by the `JNum` type (an `Option ℝ` where `none` stands for a non-finite IEEE
value: `NaN` or `±Infinity`).
-/

noncomputable section

open scoped Classical

/-! ## Viewport transform (CanvasEngine, src/unnamed/part_002 lines 91-128) -/

/-- Embedding of `CanvasEngine.screenToWorld`.  The source guards
`(isFinite(this.zoom) && this.zoom > 0) ? this.zoom : 1` and
`isFinite(this.pan.x) ? this.pan.x : 0`; over `ℝ` the `isFinite` tests are
identically true, so only the `zoom > 0` guard remains and the pan fallbacks
are the identity. -/
def screenToWorld (zoom panx pany sx sy : ℝ) : ℝ × ℝ :=
  let z := if 0 < zoom then zoom else 1
  ((sx - panx) / z, (sy - pany) / z)

/-- Embedding of `CanvasEngine.worldToScreen`: `p * zoom + pan`, with no
finiteness or positivity guard of any kind in the source. -/
def worldToScreen (zoom panx pany wx wy : ℝ) : ℝ × ℝ :=
  (wx * zoom + panx, wy * zoom + pany)

/-- `this.minZoom` from the `CanvasEngine` constructor. -/
def minZoom : ℝ := 0.02

/-- `this.maxZoom` from the `CanvasEngine` constructor. -/
def maxZoom : ℝ := 50

/-- The mutable viewport state of `CanvasEngine`: `zoom` and `pan`. -/
structure Viewport where
  zoom : ℝ
  panx : ℝ
  pany : ℝ

/-- Embedding of `CanvasEngine._onWheel` (the zoom part): `deltaYNeg` is
`e.deltaY < 0`; `posx, posy` is the canvas position of the cursor. -/
def onWheel (v : Viewport) (deltaYNeg : Bool) (posx posy : ℝ) : Viewport :=
  let worldBefore := screenToWorld v.zoom v.panx v.pany posx posy
  let factor : ℝ := if deltaYNeg then 1.1 else 0.9
  let zoom2 := max minZoom (min maxZoom (v.zoom * factor))
  let worldAfter := screenToWorld zoom2 v.panx v.pany posx posy
  { zoom := zoom2
    panx := v.panx + (worldAfter.1 - worldBefore.1) * zoom2
    pany := v.pany + (worldAfter.2 - worldBefore.2) * zoom2 }

/-! ## Non-finite failure mode (JNum model) -/

/-- A JavaScript number: `some x` is a finite value, `none` a non-finite one
(`NaN` or `±Infinity`). -/
abbrev JNum : Type := Option ℝ

/-- JavaScript `isFinite`. -/
def jIsFinite (a : JNum) : Prop := a ≠ (none : Option ℝ)

/-- Addition on JS numbers: a non-finite operand yields a non-finite result
(`x + NaN = NaN`, `x + Infinity = ±Infinity` for finite `x`). -/
def jadd : JNum → JNum → JNum
  | (some a : Option ℝ), (some b : Option ℝ) => (some (a + b) : Option ℝ)
  | _, _ => (none : Option ℝ)

/-- Subtraction on JS numbers, same non-finiteness convention as `jadd`. -/
def jsub : JNum → JNum → JNum
  | (some a : Option ℝ), (some b : Option ℝ) => (some (a - b) : Option ℝ)
  | _, _ => (none : Option ℝ)

/-- Multiplication on JS numbers, same non-finiteness convention. -/
def jmul : JNum → JNum → JNum
  | (some a : Option ℝ), (some b : Option ℝ) => (some (a * b) : Option ℝ)
  | _, _ => (none : Option ℝ)

/-- Division on JS numbers: division by zero is non-finite (`±Infinity` or
`NaN`), and a non-finite operand yields a non-finite result. -/
def jdiv : JNum → JNum → JNum
  | (some a : Option ℝ), (some b : Option ℝ) =>
      if b = 0 then (none : Option ℝ) else (some (a / b) : Option ℝ)
  | _, _ => (none : Option ℝ)

/-- JavaScript `x > 0` comparison: false when `x` is `NaN`; `Infinity > 0` is
true in JS, but the engine clamps zoom into `[0.02, 50]` on every wheel event,
so a positive-infinite zoom is modelled together with `NaN` as `none`
(comparison false, triggering the same fallback). -/
def jPos : JNum → Prop
  | (some a : Option ℝ) => 0 < a
  | (none : Option ℝ) => False

/-- Embedding of `CanvasEngine.screenToWorld` over JS numbers, keeping the
source's `isFinite` guards. -/
def screenToWorldJ (zoom panx pany sx sy : JNum) : JNum × JNum :=
  let z := if jIsFinite zoom ∧ jPos zoom then zoom else (some 1 : Option ℝ)
  let px := if jIsFinite panx then panx else (some 0 : Option ℝ)
  let py := if jIsFinite pany then pany else (some 0 : Option ℝ)
  (jdiv (jsub sx px) z, jdiv (jsub sy py) z)

/-- Embedding of `CanvasEngine.worldToScreen` over JS numbers.  The source has
no guard: it is a bare `wx * this.zoom + this.pan.x`. -/
def worldToScreenJ (zoom panx pany wx wy : JNum) : JNum × JNum :=
  (jadd (jmul wx zoom) panx, jadd (jmul wy zoom) pany)

/-! ## JavaScript numeric primitives used by the geometry code -/

/-- A 2D point, as the `[x, y]` arrays of the source. -/
abbrev Pt : Type := ℝ × ℝ

/-- JavaScript `Math.trunc`: rounds toward zero. -/
def jsTrunc (x : ℝ) : ℝ :=
  if 0 ≤ x then (⌊x⌋ : ℤ) else -(⌊-x⌋ : ℤ)

/-- The JavaScript `%` operator on numbers: remainder with the sign of the
dividend, `a - b * trunc(a / b)`. -/
def jsMod (a b : ℝ) : ℝ := a - b * jsTrunc (a / b)

/-- JavaScript `Math.atan2(y, x)`, by the usual case split. -/
def jsAtan2 (y x : ℝ) : ℝ :=
  if 0 < x then Real.arctan (y / x)
  else if x < 0 then
    (if 0 ≤ y then Real.arctan (y / x) + Real.pi else Real.arctan (y / x) - Real.pi)
  else
    (if 0 < y then Real.pi / 2 else if y < 0 then -(Real.pi / 2) else 0)

/-- JavaScript `Math.round`: rounds half-way cases toward positive infinity. -/
def jsRound (x : ℝ) : ℝ := (⌊x + 1 / 2⌋ : ℤ)

/-! ## Geometry primitives (src/static/js/geometry.js) -/

namespace Geometry

/-- `Geometry.dist`: Euclidean distance between two `[x, y]` points. -/
def dist (p1 p2 : Pt) : ℝ :=
  Real.sqrt ((p2.1 - p1.1) ^ 2 + (p2.2 - p1.2) ^ 2)

/-- `Geometry.angleBetween`: angle in degrees from `center` to `pt`. -/
def angleBetween (center pt : Pt) : ℝ :=
  jsAtan2 (pt.2 - center.2) (pt.1 - center.1) * 180 / Real.pi

/-- `Geometry.isAngleBetween`: normalizes all three angles into `[0, 360)` and
tests membership in the (possibly wrapping) range. -/
def isAngleBetween (angle start e : ℝ) : Prop :=
  let a := jsMod (jsMod angle 360 + 360) 360
  let s := jsMod (jsMod start 360 + 360) 360
  let en := jsMod (jsMod e 360 + 360) 360
  if s ≤ en then s ≤ a ∧ a ≤ en else a ≥ s ∨ a ≤ en

/-- `Geometry.lineLineIntersection`: segment/segment intersection; `none` when
the denominator's magnitude is below `1e-10` or a parameter leaves `[0, 1]`. -/
def lineLineIntersection (p1 p2 p3 p4 : Pt) : Option Pt :=
  let x1 := p1.1; let y1 := p1.2
  let x2 := p2.1; let y2 := p2.2
  let x3 := p3.1; let y3 := p3.2
  let x4 := p4.1; let y4 := p4.2
  let denom := (x1 - x2) * (y3 - y4) - (y1 - y2) * (x3 - x4)
  if |denom| < 1e-10 then none
  else
    let t := ((x1 - x3) * (y3 - y4) - (y1 - y3) * (x3 - x4)) / denom
    let u := -((x1 - x2) * (y1 - y3) - (y1 - y2) * (x1 - x3)) / denom
    if 0 ≤ t ∧ t ≤ 1 ∧ 0 ≤ u ∧ u ≤ 1 then
      some (x1 + t * (x2 - x1), y1 + t * (y2 - y1))
    else none

/-- `Geometry.lineCircleIntersection`: parametric substitution into the circle
equation; roots outside `[0, 1]` are discarded.  The `+√disc` root is pushed
before the `-√disc` root, as in the source's `[1, -1].forEach`. -/
def lineCircleIntersection (p1 p2 center : Pt) (radius : ℝ) : List Pt :=
  let x1 := p1.1 - center.1; let y1 := p1.2 - center.2
  let x2 := p2.1 - center.1; let y2 := p2.2 - center.2
  let dx := x2 - x1
  let dy := y2 - y1
  let a := dx * dx + dy * dy
  let b := 2 * (x1 * dx + y1 * dy)
  let c := x1 * x1 + y1 * y1 - radius * radius
  let disc := b * b - 4 * a * c
  if disc < 0 ∨ |a| < 1e-10 then []
  else
    let sq := Real.sqrt disc
    (List.filterMap
      (fun (sign : ℝ) =>
        let t := (-b + sign * sq) / (2 * a)
        if 0 ≤ t ∧ t ≤ 1 then some (p1.1 + t * dx, p1.2 + t * dy) else none)
      [1, -1])

/-- `Geometry.closestPointOnSegment`: vector projection with `t` clamped to
`[0, 1]`; degenerate segments return their first endpoint. -/
def closestPointOnSegment (p a b : Pt) : Pt :=
  let dx := b.1 - a.1
  let dy := b.2 - a.2
  let lenSq := dx * dx + dy * dy
  if lenSq < 1e-10 then (a.1, a.2)
  else
    let t := max 0 (min 1 (((p.1 - a.1) * dx + (p.2 - a.2) * dy) / lenSq))
    (a.1 + t * dx, a.2 + t * dy)

/-- `Geometry.perpendicularPoint`: foot of the perpendicular from `point` onto
the infinite line through `p1`, `p2` (no clamping). -/
def perpendicularPoint (point p1 p2 : Pt) : Pt :=
  let dx := p2.1 - p1.1
  let dy := p2.2 - p1.2
  let lenSq := dx * dx + dy * dy
  if lenSq < 1e-10 then (p1.1, p1.2)
  else
    let t := ((point.1 - p1.1) * dx + (point.2 - p1.2) * dy) / lenSq
    (p1.1 + t * dx, p1.2 + t * dy)

/-- `Geometry.calculateTangentPoints`: tangent points from an external point
to a circle.  Inside the circle: none; within `1e-10` of the circle: the
point itself; otherwise two symmetric points via `atan2` and `acos`. -/
def calculateTangentPoints (point center : Pt) (radius : ℝ) : List Pt :=
  let dx := center.1 - point.1
  let dy := center.2 - point.2
  let d := Real.sqrt (dx * dx + dy * dy)
  if d < radius then []
  else if |d - radius| < 1e-10 then [point]
  else
    let angle := jsAtan2 dy dx
    let offset := Real.arccos (radius / d)
    [(center.1 - radius * Real.cos (angle + offset),
      center.2 - radius * Real.sin (angle + offset)),
     (center.1 - radius * Real.cos (angle - offset),
      center.2 - radius * Real.sin (angle - offset))]

/-- `Geometry.pointInRect`: membership of a point in the normalized rectangle
spanned by `(x1, y1)` and `(x2, y2)`. -/
def pointInRect (pt : Pt) (x1 y1 x2 y2 : ℝ) : Prop :=
  min x1 x2 ≤ pt.1 ∧ pt.1 ≤ max x1 x2 ∧ min y1 y2 ≤ pt.2 ∧ pt.2 ≤ max y1 y2

/-- `Geometry.segmentIntersectsRect`: an endpoint inside the rectangle, or an
intersection with one of its four sides. -/
def segmentIntersectsRect (p1 p2 : Pt) (x1 y1 x2 y2 : ℝ) : Prop :=
  pointInRect p1 x1 y1 x2 y2 ∨ pointInRect p2 x1 y1 x2 y2 ∨
  (let minX := min x1 x2; let maxX := max x1 x2
   let minY := min y1 y2; let maxY := max y1 y2
   (lineLineIntersection p1 p2 (minX, minY) (maxX, minY)).isSome = true ∨
   (lineLineIntersection p1 p2 (maxX, minY) (maxX, maxY)).isSome = true ∨
   (lineLineIntersection p1 p2 (maxX, maxY) (minX, maxY)).isSome = true ∨
   (lineLineIntersection p1 p2 (minX, maxY) (minX, minY)).isSome = true)

end Geometry

/-! ## Shape model (data model of §3; field layout from the source) -/

/-- The tagged union of drawable shapes, with the kind-specific geometry
payloads the kernel reads.  `text` carries the length of its content string
(only the length is used by hit-testing and bounds). -/
inductive Shape : Type where
  | line (x1 y1 x2 y2 : ℝ)
  | rectangle (x y width height : ℝ)
  | circle (cx cy radius : ℝ)
  | arc (cx cy radius startAngle endAngle : ℝ)
  | ellipse (cx cy rx ry startAngle endAngle : ℝ)
  | polyline (points : List Pt) (closed : Bool)
  | text (x y : ℝ) (contentLen : ℕ) (fontSize : ℝ)
  | dimension (x1 y1 x2 y2 : ℝ)

/-- A shape record as stored in `engine.shapes`: identifier, the transient
layer-visibility flag `_hidden`, and the geometry payload. -/
structure ShapeRec : Type where
  id : ℕ
  hidden : Bool
  geom : Shape

/-- Consecutive pairs of a point list (the `i, i+1` loop of the source). -/
def consecPairs : List Pt → List (Pt × Pt)
  | a :: b :: rest => (a, b) :: consecPairs (b :: rest)
  | _ => []

/-- The closing segment `[last, first]` of a polyline; empty for an empty
point list (where the source would build a segment of `undefined`s that no
geometric test ever accepts). -/
def closingSeg (pts : List Pt) : List (Pt × Pt) :=
  match pts.getLast?, pts.head? with
  | some l, some f => [(l, f)]
  | _, _ => []

/-- `Geometry.getSegments`: the edge segments of a line, polyline (with the
closing segment when `closed`), or rectangle; other kinds have none. -/
def getSegments : Shape → List (Pt × Pt)
  | .line x1 y1 x2 y2 => [((x1, y1), (x2, y2))]
  | .polyline pts closed => consecPairs pts ++ (if closed then closingSeg pts else [])
  | .rectangle x y w h =>
      [((x, y), (x + w, y)), ((x + w, y), (x + w, y + h)),
       ((x + w, y + h), (x, y + h)), ((x, y + h), (x, y))]
  | _ => []

/-- An axis-aligned bounding box `{x, y, w, h}`. -/
structure BBox : Type where
  x : ℝ
  y : ℝ
  w : ℝ
  h : ℝ

/-- Bounding box of a nonempty point list (the polyline case of
`_getBoundingBox`; over `ℝ` every point is finite and participates). -/
def polyBBox : List Pt → Option BBox
  | [] => none
  | p :: rest =>
      let mnx := rest.foldl (fun m q => min m q.1) p.1
      let mny := rest.foldl (fun m q => min m q.2) p.2
      let mxx := rest.foldl (fun m q => max m q.1) p.1
      let mxy := rest.foldl (fun m q => max m q.2) p.2
      some ⟨mnx, mny, mxx - mnx, mxy - mny⟩

/-- `CanvasEngine._getBoundingBox`: per-kind bounding box; `none` for
degenerate geometry (empty polylines) and for kinds the switch does not
handle (dimension), which in the source fall through to `return null`.  The
source's `isFinite` guards are identically true over `ℝ`. -/
def getBoundingBox : Shape → Option BBox
  | .line x1 y1 x2 y2 => some ⟨min x1 x2, min y1 y2, |x2 - x1|, |y2 - y1|⟩
  | .rectangle x y w h => some ⟨x, y, w, h⟩
  | .circle cx cy r => some ⟨cx - r, cy - r, r * 2, r * 2⟩
  | .ellipse cx cy rx ry _ _ => some ⟨cx - rx, cy - ry, rx * 2, ry * 2⟩
  | .arc cx cy r _ _ => some ⟨cx - r, cy - r, r * 2, r * 2⟩
  | .polyline pts _ => polyBBox pts
  | .text x y len fs => some ⟨x, y - fs, (len : ℝ) * fs * 0.6, fs⟩
  | .dimension _ _ _ _ => none

/-! ## Box selection (CanvasEngine.getShapesInBox / _isShapeInBox) -/

/-- The circle/arc part of the crossing test in `_isShapeInBox`: the squared
distance from the center to the closest point of the normalized rectangle is
at most the squared radius. -/
def circleTouchesBox (cx cy r x1 y1 x2 y2 : ℝ) : Prop :=
  let minX := min x1 x2; let maxX := max x1 x2
  let minY := min y1 y2; let maxY := max y1 y2
  let closestX := max minX (min cx maxX)
  let closestY := max minY (min cy maxY)
  let dx := cx - closestX
  let dy := cy - closestY
  dx * dx + dy * dy ≤ r * r

/-- The per-kind crossing test of `_isShapeInBox` (step 3): segment
intersection for line-like shapes, center-to-rectangle distance for circles
and arcs, nothing for other kinds. -/
def shapeCrossesBox (s : Shape) (x1 y1 x2 y2 : ℝ) : Prop :=
  match s with
  | .line _ _ _ _ =>
      ∃ seg ∈ getSegments s, Geometry.segmentIntersectsRect seg.1 seg.2 x1 y1 x2 y2
  | .polyline _ _ =>
      ∃ seg ∈ getSegments s, Geometry.segmentIntersectsRect seg.1 seg.2 x1 y1 x2 y2
  | .rectangle _ _ _ _ =>
      ∃ seg ∈ getSegments s, Geometry.segmentIntersectsRect seg.1 seg.2 x1 y1 x2 y2
  | .circle cx cy r => circleTouchesBox cx cy r x1 y1 x2 y2
  | .arc cx cy r _ _ => circleTouchesBox cx cy r x1 y1 x2 y2
  | _ => False

/-- `CanvasEngine._isShapeInBox`: a shape with no bounding box is never
selected; otherwise it is selected when its bounding box lies entirely inside
the normalized box, or — in a crossing selection — when the per-kind crossing
test passes. -/
def isShapeInBox (s : Shape) (x1 y1 x2 y2 : ℝ) (crossing : Bool) : Prop :=
  match getBoundingBox s with
  | none => False
  | some bb =>
      (min x1 x2 ≤ bb.x ∧ min y1 y2 ≤ bb.y ∧
       bb.x + bb.w ≤ max x1 x2 ∧ bb.y + bb.h ≤ max y1 y2) ∨
      (crossing = true ∧ shapeCrossesBox s x1 y1 x2 y2)

/-- `CanvasEngine.getShapesInBox`: filters out hidden shapes and keeps those
passing `_isShapeInBox`. -/
def getShapesInBox (shapes : List ShapeRec) (x1 y1 x2 y2 : ℝ) (crossing : Bool) :
    List ShapeRec :=
  shapes.filter fun s =>
    decide (s.hidden = false ∧ isShapeInBox s.geom x1 y1 x2 y2 crossing)

/-- The selection box dragged by `SelectTool` (`engine._selectionBox`). -/
structure SelBox : Type where
  x1 : ℝ
  y1 : ℝ
  x2 : ℝ
  y2 : ℝ

/-- The box-selection slice of `SelectTool.onMouseUp`: the drag is a crossing
selection exactly when `box.x2 < box.x1`. -/
def selectToolBoxShapes (shapes : List ShapeRec) (box : SelBox) : List ShapeRec :=
  getShapesInBox shapes box.x1 box.y1 box.x2 box.y2 (decide (box.x2 < box.x1))

/-! ## Hit testing (CanvasEngine.hitTest / _hitTestShape) -/

/-- `CanvasEngine._pointToLineDist`: distance from a point to a clamped
segment (degenerate segments collapse to their first endpoint). -/
def pointToLineDist (p : Pt) (x1 y1 x2 y2 : ℝ) : ℝ :=
  let dx := x2 - x1
  let dy := y2 - y1
  let lenSq := dx * dx + dy * dy
  if lenSq < 1e-10 then Real.sqrt ((p.1 - x1) ^ 2 + (p.2 - y1) ^ 2)
  else
    let t := max 0 (min 1 (((p.1 - x1) * dx + (p.2 - y1) * dy) / lenSq))
    let px := x1 + t * dx
    let py := y1 + t * dy
    Real.sqrt ((p.1 - px) ^ 2 + (p.2 - py) ^ 2)

/-- `CanvasEngine._hitTestShape`: the per-kind world-space tolerance test. -/
def hitTestShape (s : Shape) (pos : Pt) (tol : ℝ) : Prop :=
  match s with
  | .line x1 y1 x2 y2 => pointToLineDist pos x1 y1 x2 y2 < tol
  | .rectangle x y w h =>
      pointToLineDist pos x y (x + w) y < tol ∨
      pointToLineDist pos (x + w) y (x + w) (y + h) < tol ∨
      pointToLineDist pos (x + w) (y + h) x (y + h) < tol ∨
      pointToLineDist pos x (y + h) x y < tol
  | .circle cx cy r =>
      |Real.sqrt ((pos.1 - cx) ^ 2 + (pos.2 - cy) ^ 2) - r| < tol
  | .arc cx cy r sa ea =>
      let d := Real.sqrt ((pos.1 - cx) ^ 2 + (pos.2 - cy) ^ 2)
      ¬(|d - r| > tol) ∧
      (let angle0 := jsAtan2 (pos.2 - cy) (pos.1 - cx) * 180 / Real.pi
       let angle := if angle0 < 0 then angle0 + 360 else angle0
       let sa0 := jsMod sa 360
       let sa1 := if sa0 < 0 then sa0 + 360 else sa0
       let ea0 := jsMod ea 360
       let ea1 := if ea0 < 0 then ea0 + 360 else ea0
       if sa1 ≤ ea1 then sa1 ≤ angle ∧ angle ≤ ea1 else angle ≥ sa1 ∨ angle ≤ ea1)
  | .ellipse cx cy rx ry _ _ =>
      let dx := (pos.1 - cx) / rx
      let dy := (pos.2 - cy) / ry
      |Real.sqrt (dx * dx + dy * dy) - 1| < tol / min rx ry
  | .polyline pts closed =>
      (∃ seg ∈ consecPairs pts,
        pointToLineDist pos seg.1.1 seg.1.2 seg.2.1 seg.2.2 < tol) ∨
      (closed = true ∧ 2 < pts.length ∧
        ∃ seg ∈ closingSeg pts,
          pointToLineDist pos seg.1.1 seg.1.2 seg.2.1 seg.2.2 < tol)
  | .text x y len fs =>
      let textW := (len : ℝ) * fs * 0.6
      x ≤ pos.1 ∧ pos.1 ≤ x + textW ∧ y - fs ≤ pos.2 ∧ pos.2 ≤ y
  | .dimension x1 y1 x2 y2 => pointToLineDist pos x1 y1 x2 y2 < tol * 2

/-- `CanvasEngine.hitTest`: scans shapes in reverse z-order (last drawn first)
with tolerance `pixelTolerance / zoom` and returns the first hit.  The
`_hidden` flag is not consulted. -/
def hitTest (shapes : List ShapeRec) (pos : Pt) (tolerance zoom : ℝ) : Option ShapeRec :=
  shapes.reverse.find? fun s => decide (hitTestShape s.geom pos (tolerance / zoom))

/-! ## Object snapping (CanvasEngine.findSnapPoint, src/unnamed/part_002) -/

/-- The snap kinds of the data model (§3); `grid` appears in the
snap-settings map but is never produced by `findSnapPoint`. -/
inductive SnapType : Type where
  | endpoint
  | midpoint
  | center
  | quadrant
  | intersection
  | perpendicular
  | tangent
  | extension
  | nearest
  | grid
  deriving DecidableEq

/-- A snap candidate `{type, point}`. -/
structure SnapPoint : Type where
  type : SnapType
  point : Pt

/-- The per-type snap-settings map; `none` models a `null` settings object. -/
def SnapSettings : Type := Option (SnapType → Bool)

/-- `isEnabled(type)` from `findSnapPoint`:
`!settings || settings[type] !== false`. -/
def isEnabled (settings : SnapSettings) (t : SnapType) : Bool :=
  match settings with
  | none => true
  | some f => f t

/-- The running best-candidate / minimum-distance pair threaded through the
snap tiers. -/
structure SnapAcc : Type where
  best : Option SnapPoint
  minDist : ℝ

/-- The `checkPoint` closure of `findSnapPoint`: replaces the running best
candidate when the new point is strictly closer. -/
def checkPoint (worldPos : Pt) (acc : SnapAcc) (p : Pt) (t : SnapType) : SnapAcc :=
  let d := Real.sqrt ((worldPos.1 - p.1) ^ 2 + (worldPos.2 - p.2) ^ 2)
  if d < acc.minDist then ⟨some ⟨t, p⟩, d⟩ else acc

/-- Feeding a list of candidates through `checkPoint` in order. -/
def runChecks (worldPos : Pt) (acc : SnapAcc) (cands : List SnapPoint) : SnapAcc :=
  cands.foldl (fun a c => checkPoint worldPos a c.point c.type) acc

/-- The endpoint/midpoint snap points of a polyline's node loop (per node:
its endpoint, then the midpoint to the next node). -/
def polySnapPts (epOn mpOn : Bool) : List Pt → List SnapPoint
  | [] => []
  | [p] => if epOn = true then [⟨.endpoint, p⟩] else []
  | p :: q :: rest =>
      (if epOn = true then [⟨.endpoint, p⟩] else []) ++
      (if mpOn = true then
        [⟨.midpoint, ((p.1 + q.1) / 2, (p.2 + q.2) / 2)⟩] else []) ++
      polySnapPts epOn mpOn (q :: rest)

/-- The closing midpoint `[last, first]` of a closed polyline. -/
def closingMid (pts : List Pt) : List SnapPoint :=
  match pts.getLast?, pts.head? with
  | some l, some f => [⟨.midpoint, ((l.1 + f.1) / 2, (l.2 + f.2) / 2)⟩]
  | _, _ => []

/-- `CanvasEngine._getSnapPointsForShape`: the static per-shape snap points
(endpoint, midpoint, center, quadrant), each gated by its enabled flag. -/
def getSnapPointsForShape (s : Shape) (settings : SnapSettings) : List SnapPoint :=
  match s with
  | .line x1 y1 x2 y2 =>
      (if isEnabled settings .endpoint = true then
        [⟨.endpoint, (x1, y1)⟩, ⟨.endpoint, (x2, y2)⟩] else []) ++
      (if isEnabled settings .midpoint = true then
        [⟨.midpoint, ((x1 + x2) / 2, (y1 + y2) / 2)⟩] else [])
  | .polyline pts closed =>
      polySnapPts (isEnabled settings .endpoint) (isEnabled settings .midpoint) pts ++
      (if closed = true ∧ 2 < pts.length ∧ isEnabled settings .midpoint = true then
        closingMid pts else [])
  | .rectangle x y w h =>
      (if isEnabled settings .endpoint = true then
        [⟨.endpoint, (x, y)⟩, ⟨.endpoint, (x + w, y)⟩,
         ⟨.endpoint, (x + w, y + h)⟩, ⟨.endpoint, (x, y + h)⟩] else []) ++
      (if isEnabled settings .midpoint = true then
        [⟨.midpoint, (x + w / 2, y)⟩, ⟨.midpoint, (x + w, y + h / 2)⟩,
         ⟨.midpoint, (x + w / 2, y + h)⟩, ⟨.midpoint, (x, y + h / 2)⟩] else []) ++
      (if isEnabled settings .center = true then
        [⟨.center, (x + w / 2, y + h / 2)⟩] else [])
  | .circle cx cy r =>
      (if isEnabled settings .center = true then [⟨.center, (cx, cy)⟩] else []) ++
      (if isEnabled settings .quadrant = true then
        [⟨.quadrant, (cx + r, cy)⟩, ⟨.quadrant, (cx - r, cy)⟩,
         ⟨.quadrant, (cx, cy + r)⟩, ⟨.quadrant, (cx, cy - r)⟩] else [])
  | .arc cx cy r sa ea =>
      (if isEnabled settings .center = true then [⟨.center, (cx, cy)⟩] else []) ++
      (if isEnabled settings .endpoint = true then
        [sa, ea].map fun a =>
          ⟨.endpoint, (cx + Real.cos (a * Real.pi / 180) * r,
                       cy + Real.sin (a * Real.pi / 180) * r)⟩ else []) ++
      (if isEnabled settings .quadrant = true then
        ([0, 90, 180, 270] : List ℝ).filterMap fun ang =>
          if Geometry.isAngleBetween ang sa ea then
            some ⟨.quadrant, (cx + Real.cos (ang * Real.pi / 180) * r,
                              cy + Real.sin (ang * Real.pi / 180) * r)⟩
          else none
       else [])
  | .ellipse cx cy rx ry sa ea =>
      (if isEnabled settings .center = true then [⟨.center, (cx, cy)⟩] else []) ++
      (if isEnabled settings .quadrant = true then
        ([0, 90, 180, 270] : List ℝ).filterMap fun ang =>
          if Geometry.isAngleBetween ang sa ea then
            some ⟨.quadrant, (cx + Real.cos (ang * Real.pi / 180) * rx,
                              cy + Real.sin (ang * Real.pi / 180) * ry)⟩
          else none
       else [])
  | _ => []

/-- Membership of a shape kind in the source's `polyTypes` list
(`line`, `polyline`, `rectangle`). -/
def isPolyType : Shape → Bool
  | .line _ _ _ _ => true
  | .polyline _ _ => true
  | .rectangle _ _ _ _ => true
  | _ => false

/-- Whether a shape is a circle or an arc. -/
def isCircleOrArc : Shape → Bool
  | .circle _ _ _ => true
  | .arc _ _ _ _ _ => true
  | _ => false

/-- The poly-shape × circle-or-arc case of `_getIntersections`: segment/circle
intersections, with arc results filtered by the angle-in-range test. -/
def polyCircleInters (sp sc : Shape) : List Pt :=
  match sc with
  | .circle cx cy r =>
      (getSegments sp).flatMap fun seg =>
        Geometry.lineCircleIntersection seg.1 seg.2 (cx, cy) r
  | .arc cx cy r sa ea =>
      (getSegments sp).flatMap fun seg =>
        (Geometry.lineCircleIntersection seg.1 seg.2 (cx, cy) r).filter fun pt =>
          decide (Geometry.isAngleBetween (Geometry.angleBetween (cx, cy) pt) sa ea)
  | _ => []

/-- `CanvasEngine._getIntersections`: pairwise intersections of two shapes
(line-like × line-like by segment pairs, line-like × circle-or-arc by the
quadratic, with the symmetric case recursed with swapped arguments). -/
def getIntersections (s1 s2 : Shape) : List Pt :=
  if isPolyType s1 = true ∧ isPolyType s2 = true then
    (getSegments s1).flatMap fun seg1 =>
      (getSegments s2).filterMap fun seg2 =>
        Geometry.lineLineIntersection seg1.1 seg1.2 seg2.1 seg2.2
  else if isPolyType s1 = true ∧ isCircleOrArc s2 = true then
    polyCircleInters s1 s2
  else if isPolyType s2 = true ∧ isCircleOrArc s1 = true then
    polyCircleInters s2 s1
  else []

/-- The ordered pairs `i < j` of the source's double loop over shapes. -/
def orderedPairs : List ShapeRec → List (ShapeRec × ShapeRec)
  | [] => []
  | x :: rest => rest.map (fun y => (x, y)) ++ orderedPairs rest

/-- Tier-1 candidates: static snap points of every visible shape. -/
def staticCands (shapes : List ShapeRec) (settings : SnapSettings) : List SnapPoint :=
  shapes.flatMap fun s =>
    if s.hidden = true then [] else getSnapPointsForShape s.geom settings

/-- Tier-2 candidates: pairwise intersections between visible shapes. -/
def intersectionCands (shapes : List ShapeRec) : List SnapPoint :=
  (orderedPairs shapes).flatMap fun pr =>
    if pr.1.hidden = true ∨ pr.2.hidden = true then []
    else (getIntersections pr.1.geom pr.2.geom).map fun pt => ⟨.intersection, pt⟩

/-- Tier-3 perpendicular candidates: feet of the anchor on every visible
shape's edges. -/
def perpCands (shapes : List ShapeRec) (bp : Pt) : List SnapPoint :=
  shapes.flatMap fun s =>
    if s.hidden = true then []
    else (getSegments s.geom).map fun seg =>
      ⟨.perpendicular, Geometry.perpendicularPoint bp seg.1 seg.2⟩

/-- Tier-3 tangent candidates: tangent points from the anchor to every
visible circle or arc (arc results filtered by angle range). -/
def tangentCands (shapes : List ShapeRec) (bp : Pt) : List SnapPoint :=
  shapes.flatMap fun s =>
    if s.hidden = true then []
    else
      match s.geom with
      | .circle cx cy r =>
          (Geometry.calculateTangentPoints bp (cx, cy) r).map fun tp => ⟨.tangent, tp⟩
      | .arc cx cy r sa ea =>
          ((Geometry.calculateTangentPoints bp (cx, cy) r).filter fun tp =>
            decide (Geometry.isAngleBetween (Geometry.angleBetween (cx, cy) tp) sa ea)).map
            fun tp => ⟨.tangent, tp⟩
      | _ => []

/-- Extension candidates: the cursor's projection onto each visible line's
infinite extension, emitted only outside the segment and within `300 / zoom`
of an endpoint. -/
def extensionCands (shapes : List ShapeRec) (worldPos : Pt) (tol zoom : ℝ) :
    List SnapPoint :=
  shapes.flatMap fun s =>
    if s.hidden = true then []
    else
      match s.geom with
      | .line x1 y1 x2 y2 =>
          let p1 : Pt := (x1, y1)
          let p2 : Pt := (x2, y2)
          let perp := Geometry.perpendicularPoint (worldPos.1, worldPos.2) p1 p2
          let dToLine := Geometry.dist perp (worldPos.1, worldPos.2)
          if dToLine < tol then
            let d1 := Geometry.dist perp p1
            let d2 := Geometry.dist perp p2
            let d12 := Geometry.dist p1 p2
            if d1 > d12 ∨ d2 > d12 then
              if d1 < 300 / zoom ∨ d2 < 300 / zoom then [⟨.extension, perp⟩] else []
            else []
          else []
      | _ => []

/-- `CanvasEngine._checkNearestOnShape` as a candidate list: closest point on
each edge segment, or the radial projection onto a circle/arc. -/
def nearestCands (shapes : List ShapeRec) (p : Pt) : List SnapPoint :=
  shapes.flatMap fun s =>
    if s.hidden = true then []
    else if isPolyType s.geom = true then
      (getSegments s.geom).map fun seg =>
        ⟨.nearest, Geometry.closestPointOnSegment p seg.1 seg.2⟩
    else
      match s.geom with
      | .circle cx cy r =>
          let dx := p.1 - cx
          let dy := p.2 - cy
          let d := Real.sqrt (dx * dx + dy * dy)
          if d < 1e-10 then [] else [⟨.nearest, (cx + r * dx / d, cy + r * dy / d)⟩]
      | .arc cx cy r sa ea =>
          let dx := p.1 - cx
          let dy := p.2 - cy
          let d := Real.sqrt (dx * dx + dy * dy)
          if d < 1e-10 then []
          else
            let near : Pt := (cx + r * dx / d, cy + r * dy / d)
            if Geometry.isAngleBetween (Geometry.angleBetween (cx, cy) near) sa ea then
              [⟨.nearest, near⟩]
            else []
      | _ => []

/-- `CanvasEngine.findSnapPoint`: the tiered snap resolver.  A single
best-candidate/min-distance pair is threaded through the tiers; tier 2 runs
only when no earlier candidate is closer than `5 / zoom`, tier 3 only when an
anchor (`snapBasePoint`) is set, and the nearest tier only when no earlier
candidate is closer than `8 / zoom`. -/
def findSnapPoint (shapes : List ShapeRec) (snapBasePoint : Option Pt) (zoom : ℝ)
    (worldPos : Pt) (tolerance : ℝ) (settings : SnapSettings) : Option SnapPoint :=
  let tol := tolerance / zoom
  let acc0 : SnapAcc := ⟨none, tol⟩
  let acc1 := runChecks worldPos acc0 (staticCands shapes settings)
  let acc2 :=
    if isEnabled settings .intersection = true ∧
        (acc1.best = none ∨ acc1.minDist > 5 / zoom) then
      runChecks worldPos acc1 (intersectionCands shapes)
    else acc1
  let acc3 :=
    match snapBasePoint with
    | none => acc2
    | some bp =>
        let accP :=
          if isEnabled settings .perpendicular = true then
            runChecks worldPos acc2 (perpCands shapes bp)
          else acc2
        if isEnabled settings .tangent = true then
          runChecks worldPos accP (tangentCands shapes bp)
        else accP
  let acc4 :=
    if isEnabled settings .extension = true then
      runChecks worldPos acc3 (extensionCands shapes worldPos tol zoom)
    else acc3
  let acc5 :=
    if isEnabled settings .nearest = true ∧
        (acc4.best = none ∨ acc4.minDist > 8 / zoom) then
      runChecks worldPos acc4 (nearestCands shapes worldPos)
    else acc4
  acc5.best

/-- `ToolManager.applySnap` (the returned point; the `snapBasePoint` side
effect is not part of the returned value): an active object snap wins
outright, otherwise grid rounding applies when grid snap is on and the grid
size is non-zero (truthy). -/
def applySnap (snapEnabled gridSnap : Bool) (gridSize : ℝ)
    (snapPoint : Option SnapPoint) (world : Pt) : Pt :=
  if snapEnabled = false then world
  else
    match snapPoint with
    | some sp => sp.point
    | none =>
        if gridSnap = true ∧ gridSize ≠ 0 then
          (jsRound (world.1 / gridSize) * gridSize,
           jsRound (world.2 / gridSize) * gridSize)
        else world

/-! ## Spec-side selection predicates (wording of C3 / spec §4.5) -/

/-- Spec wording: the shape has a bounding box and it lies fully inside the
(normalized) selection box. -/
def bboxInsideBox (s : Shape) (x1 y1 x2 y2 : ℝ) : Prop :=
  match getBoundingBox s with
  | none => False
  | some bb =>
      min x1 x2 ≤ bb.x ∧ min y1 y2 ≤ bb.y ∧
      bb.x + bb.w ≤ max x1 x2 ∧ bb.y + bb.h ≤ max y1 y2

/-- Spec wording: the shape has an edge segment intersecting the box or having
an endpoint inside it. -/
def hasEdgeTouchingBox (s : Shape) (x1 y1 x2 y2 : ℝ) : Prop :=
  ∃ seg ∈ getSegments s, Geometry.segmentIntersectsRect seg.1 seg.2 x1 y1 x2 y2

/-- Spec wording: a circle or arc whose closest-point-in-rectangle-to-center
distance is at most the radius (the full circle, not restricted to the arc's
angular range). -/
def circleReachesBox (s : Shape) (x1 y1 x2 y2 : ℝ) : Prop :=
  match s with
  | .circle cx cy r =>
      Geometry.dist (cx, cy)
        (max (min x1 x2) (min cx (max x1 x2)), max (min y1 y2) (min cy (max y1 y2))) ≤ r
  | .arc cx cy r _ _ =>
      Geometry.dist (cx, cy)
        (max (min x1 x2) (min cx (max x1 x2)), max (min y1 y2) (min cy (max y1 y2))) ≤ r
  | _ => False

/-- Well-formedness of the data model used by C3: circles and arcs carry a
non-negative radius. -/
def nonnegRadius : Shape → Prop
  | .circle _ _ r => 0 ≤ r
  | .arc _ _ r _ _ => 0 ≤ r
  | _ => True

/-! ## Tool state machines (src/static/js/tools.js, second document) -/

/-- The slice of the tool registry relevant to the interactive command
state machines and the multi-point shape tools. -/
inductive ToolName : Type where
  | select
  | line
  | rectangle
  | circle
  | polyline
  | scale
  | transform
  | array
  | fillet
  deriving DecidableEq

/-- The shared engine state read and written by the tools' key handlers. -/
structure EngineState : Type where
  preview : Option (List Shape)
  snapBasePoint : Option Pt
  hoveredId : Option ℕ
  selectedIds : List ℕ

/-- `PolylineTool` internal state: the picked points. -/
structure PolylineState : Type where
  points : List Pt

/-- The state tags of `ScaleTool`
(`pick_base → pick_factor → [ref_1 → ref_2 → ref_new]`). -/
inductive ScaleTag : Type where
  | pick_base
  | pick_factor
  | ref_1
  | ref_2
  | ref_new
  deriving DecidableEq

/-- `ScaleTool` sub-mode: direct or reference scaling. -/
inductive ScaleMode : Type where
  | normal
  | reference
  deriving DecidableEq

/-- `ScaleTool` internal state (a `none` base point is the initial `null`). -/
structure ScaleState : Type where
  tag : ScaleTag
  basePoint : Option Pt
  refPoint1 : Option Pt
  refPoint2 : Option Pt
  mode : ScaleMode
  isCopy : Bool
  ids : List ℕ
  baseShapes : List ShapeRec
  scaleFactor : ℝ

/-- The state tags of `TransformTool` (`pick_base → transforming`). -/
inductive TransformTag : Type where
  | pick_base
  | transforming
  deriving DecidableEq

/-- `TransformTool` sub-mode: move or rotate. -/
inductive TransformMode : Type where
  | move
  | rotate
  deriving DecidableEq

/-- `TransformTool` internal state. -/
structure TransformState : Type where
  tag : TransformTag
  mode : TransformMode
  isCopy : Bool
  basePoint : Option Pt
  ids : List ℕ
  baseShapes : List ShapeRec
  dx : ℝ
  dy : ℝ
  angle : ℝ

/-- `ArrayTool` internal state (the slice its Escape handler can see). -/
structure ArrayState : Type where
  rectangularMode : Bool
  configuring : Bool
  center : Option Pt

/-- `FilletTool` internal state. -/
structure FilletState : Type where
  radius : ℝ
  firstShape : Option ShapeRec
  firstClickPt : Option Pt

/-- The combined application state: the active tool, the shared engine
state, and each tool's internal state. -/
structure AppState : Type where
  currentTool : ToolName
  engine : EngineState
  linePt : Option Pt
  rectPt : Option Pt
  circleCenter : Option Pt
  polyline : PolylineState
  scale : ScaleState
  transform : TransformState
  arrayState : ArrayState
  fillet : FilletState

/-- `ToolManager.setTool('select')`: the departing tool's inherited
`BaseTool.deactivate` clears the preview and the snap base point, then the
selection tool is activated (no further state change). -/
def setToolSelect (s : AppState) : AppState :=
  { s with currentTool := ToolName.select,
           engine := { s.engine with preview := none, snapBasePoint := none } }

/-- `SelectTool.onKeyDown` on Escape: clears the selection. -/
def selectEscape (s : AppState) : AppState :=
  { s with engine := { s.engine with selectedIds := [] } }

/-- `LineTool.onKeyDown` on Escape. -/
def lineEscape (s : AppState) : AppState :=
  { s with linePt := none,
           engine := { s.engine with preview := none, snapBasePoint := none } }

/-- `RectangleTool.onKeyDown` on Escape (no snap-base-point reset). -/
def rectangleEscape (s : AppState) : AppState :=
  { s with rectPt := none, engine := { s.engine with preview := none } }

/-- `CircleTool.onKeyDown` on Escape. -/
def circleEscape (s : AppState) : AppState :=
  { s with circleCenter := none,
           engine := { s.engine with preview := none, snapBasePoint := none } }

/-- `PolylineTool.onKeyDown` on Escape: clears the picked points, the preview
and the snap base point — and does not switch tools. -/
def polylineEscape (s : AppState) : AppState :=
  { s with polyline := ⟨[]⟩,
           engine := { s.engine with preview := none, snapBasePoint := none } }

/-- `ScaleTool.onKeyDown` on Escape: `setTool('select')` only. -/
def scaleEscape (s : AppState) : AppState :=
  setToolSelect s

/-- `TransformTool.onKeyDown` on Escape: `setTool('select')` only. -/
def transformEscape (s : AppState) : AppState :=
  setToolSelect s

/-- `ArrayTool.onKeyDown` on Escape: clears the preview, then
`setTool('select')`. -/
def arrayEscape (s : AppState) : AppState :=
  setToolSelect { s with engine := { s.engine with preview := none } }

/-- `FilletTool.onKeyDown` on Escape: clears preview, hover, first pick and
selection, then `setTool('select')`. -/
def filletEscape (s : AppState) : AppState :=
  setToolSelect
    { s with
        engine := { s.engine with
          preview := none
          hoveredId := none
          selectedIds := [] }
        fillet := { s.fillet with firstShape := none } }

/-- `ToolManager.onKeyDown` dispatch of the Escape key to the active tool. -/
def onKeyEscape (s : AppState) : AppState :=
  match s.currentTool with
  | .select => selectEscape s
  | .line => lineEscape s
  | .rectangle => rectangleEscape s
  | .circle => circleEscape s
  | .polyline => polylineEscape s
  | .scale => scaleEscape s
  | .transform => transformEscape s
  | .array => arrayEscape s
  | .fillet => filletEscape s

/-! ## Finalization against the external collaborator (C9) -/

/-- The mutation calls of the external shape-mutation collaborator used by
the Scale and Transform finalizers. -/
inductive ApiCall : Type where
  | copyShapes (ids : List ℕ) (dx dy : ℝ)
  | scaleShapes (ids : List ℕ) (pivot : Pt) (factor : ℝ)
  | translateShapes (ids : List ℕ) (dx dy : ℝ)
  | rotateShapes (ids : List ℕ) (pivot : Pt) (angleDeg : ℝ)
  deriving DecidableEq

/-- The parsed payload of a resolved `copy_shapes` call:
`{success, ids}`. -/
structure CopyResponse : Type where
  success : Bool
  ids : Option (List ℕ)

/-- Embedding of `ScaleTool._finishScale(factor)`.  The `copyOut` and
`scaleOut` parameters are the outcomes of the (at most two) collaborator
calls: `Except.error` is a rejected promise, which transfers control to the
`catch` block (log only, no state change).  The returned triple is the new
application state, the list of mutations the collaborator applied (a resolved
copy with `success` reports the copy as applied), and whether an error was
logged.  A `null` base point makes `JSON.stringify([basePoint.x, ...])`
throw inside the `try`, which the same `catch` logs. -/
def finishScale (s : AppState) (factor : ℝ)
    (copyOut : Except Unit CopyResponse) (scaleOut : Except Unit Unit) :
    AppState × List ApiCall × Bool :=
  let st := s.scale
  if st.isCopy = true then
    match copyOut with
    | .error _ => (s, [], true)
    | .ok resp =>
        match resp.success, resp.ids with
        | true, some newIds =>
            match st.basePoint with
            | none => (s, [ApiCall.copyShapes st.ids 0 0], true)
            | some bp =>
                match scaleOut with
                | .error _ => (s, [ApiCall.copyShapes st.ids 0 0], true)
                | .ok _ =>
                    (setToolSelect s,
                     [ApiCall.copyShapes st.ids 0 0,
                      ApiCall.scaleShapes newIds bp factor], false)
        | true, none => (setToolSelect s, [ApiCall.copyShapes st.ids 0 0], false)
        | false, _ => (setToolSelect s, [], false)
  else
    match st.basePoint with
    | none => (s, [], true)
    | some bp =>
        match scaleOut with
        | .error _ => (s, [], true)
        | .ok _ => (setToolSelect s, [ApiCall.scaleShapes st.ids bp factor], false)

/-- `TransformTool._reset` (called on successful finalization before
switching back to the selection tool). -/
def transformReset (s : AppState) : AppState :=
  { s with
      transform := { s.transform with
        tag := TransformTag.pick_base
        mode := TransformMode.move
        isCopy := false
        basePoint := none
        dx := 0
        dy := 0
        angle := 0 }
      engine := { s.engine with preview := none } }

/-- Embedding of `TransformTool._finish()`, with the same conventions as
`finishScale`: a resolved copy with `success: false` (or missing ids) throws
`"Copy failed"`, landing in the same `catch`; a `null` base point in rotate
mode throws before the rotate call. -/
def transformFinish (s : AppState)
    (copyOut : Except Unit CopyResponse) (opOut : Except Unit Unit) :
    AppState × List ApiCall × Bool :=
  let st := s.transform
  let run : List ℕ → List ApiCall → AppState × List ApiCall × Bool :=
    fun targetIds applied0 =>
      match st.mode with
      | .move =>
          match opOut with
          | .error _ => (s, applied0, true)
          | .ok _ =>
              (setToolSelect (transformReset s),
               applied0 ++ [ApiCall.translateShapes targetIds st.dx st.dy], false)
      | .rotate =>
          match st.basePoint with
          | none => (s, applied0, true)
          | some bp =>
              match opOut with
              | .error _ => (s, applied0, true)
              | .ok _ =>
                  (setToolSelect (transformReset s),
                   applied0 ++ [ApiCall.rotateShapes targetIds bp st.angle], false)
  if st.isCopy = true then
    match copyOut with
    | .error _ => (s, [], true)
    | .ok resp =>
        match resp.success, resp.ids with
        | true, some newIds => run newIds [ApiCall.copyShapes st.ids 0 0]
        | true, none => (s, [ApiCall.copyShapes st.ids 0 0], true)
        | false, _ => (s, [], true)
  else
    run st.ids []

/-- A concrete application state: the polyline tool is active, two points
picked, a preview alive. -/
def samplePolyApp : AppState :=
  { currentTool := ToolName.polyline
    engine := ⟨some [Shape.line 0 0 1 1], some (1, 1), none, []⟩
    linePt := none
    rectPt := none
    circleCenter := none
    polyline := ⟨[(0, 0), (1, 1)]⟩
    scale := ⟨ScaleTag.pick_base, none, none, none, ScaleMode.normal, false, [], [], 1⟩
    transform := ⟨TransformTag.pick_base, TransformMode.move, false, none, [], [], 0, 0, 0⟩
    arrayState := ⟨true, false, none⟩
    fillet := ⟨10, none, none⟩ }

/-- A concrete application state: the scale tool is active in copy mode, a
base point picked, one shape selected. -/
def sampleScaleCopyApp : AppState :=
  { currentTool := ToolName.scale
    engine := ⟨some [Shape.line 0 0 1 1], none, none, [1]⟩
    linePt := none
    rectPt := none
    circleCenter := none
    polyline := ⟨[]⟩
    scale := ⟨ScaleTag.pick_factor, some (0, 0), none, none, ScaleMode.normal, true,
              [1], [⟨1, false, Shape.line 0 0 1 1⟩], 2⟩
    transform := ⟨TransformTag.transforming, TransformMode.move, true, some (0, 0),
                  [1], [⟨1, false, Shape.line 0 0 1 1⟩], 3, 4, 0⟩
    arrayState := ⟨true, false, none⟩
    fillet := ⟨10, none, none⟩ }

/-! ## Fillet preview constructor (FilletTool._showPreview, tools.js) -/

/-- `FilletTool._lineLineInf`: infinite-line intersection (no parameter range
check), failing only on a near-parallel denominator. -/
def lineLineInf (x1 y1 x2 y2 x3 y3 x4 y4 : ℝ) : Option Pt :=
  let denom := (x1 - x2) * (y3 - y4) - (y1 - y2) * (x3 - x4)
  if |denom| < 1e-10 then none
  else
    let t := ((x1 - x3) * (y3 - y4) - (y1 - y3) * (x3 - x4)) / denom
    some (x1 + t * (x2 - x1), y1 + t * (y2 - y1))

/-- `FilletTool._projectOnLine`: unclamped perpendicular projection. -/
def projectOnLine (pt a b : Pt) : Pt :=
  let dx := b.1 - a.1
  let dy := b.2 - a.2
  let lenSq := dx * dx + dy * dy
  if lenSq < 1e-10 then (a.1, a.2)
  else
    let t := ((pt.1 - a.1) * dx + (pt.2 - a.2) * dy) / lenSq
    (a.1 + t * dx, a.2 + t * dy)

/-- The local `dist` helper of `_showPreview`. -/
def fdist (a b : Pt) : ℝ :=
  Real.sqrt ((a.1 - b.1) ^ 2 + (a.2 - b.2) ^ 2)

/-- Step 2 of `_showPreview`: the endpoint farther from the intersection
(ties go to the first endpoint, as in `>=`). -/
def farFrom (pa pb ix : Pt) : Pt :=
  if fdist pa ix ≥ fdist pb ix then pa else pb

/-- Step 4 of `_showPreview`: of the two unit normals of `u`, the one whose
dot product with the other line's direction is positive. -/
def pickNormal (u other : Pt) : Pt :=
  if (-u.2) * other.1 + u.1 * other.2 > 0 then (-u.2, u.1) else (u.2, -u.1)

/-- Step 8 of `_showPreview`: normalize the raw start/end angles, compute the
counter-clockwise sweep and the two candidate angular midpoints, and swap the
angles when the current sweep's midpoint is the farther one from the original
intersection. -/
def arcSweepAngles (sa ea : ℝ) (center ix : Pt) (radius : ℝ) : ℝ × ℝ :=
  let saN := jsMod (jsMod sa 360 + 360) 360
  let eaN := jsMod (jsMod ea 360 + 360) 360
  let sweepCW0 := jsMod (jsMod (eaN - saN) 360 + 360) 360
  let sweepCW := if sweepCW0 = 0 then 360 else sweepCW0
  let mid1A := saN + sweepCW / 2
  let mid2A := saN - (360 - sweepCW) / 2
  let mid1 : Pt := (center.1 + radius * Real.cos (mid1A * Real.pi / 180),
                    center.2 + radius * Real.sin (mid1A * Real.pi / 180))
  let mid2 : Pt := (center.1 + radius * Real.cos (mid2A * Real.pi / 180),
                    center.2 + radius * Real.sin (mid2A * Real.pi / 180))
  if fdist mid1 ix > fdist mid2 ix then (ea, sa) else (sa, ea)

/-- `FilletTool._showPreview` for two line shapes `(x1,y1)-(x2,y2)` and
`(x3,y3)-(x4,y4)` with the tool's radius and the engine zoom: the produced
`engine.preview` geometry (`none` when a degenerate step aborts with no
preview).  The `mouseWorld` argument of the source is unused by its body and
is omitted.  The marker circles carry radii `4/zoom` and `3/zoom` as in the
source. -/
def showPreview (x1 y1 x2 y2 x3 y3 x4 y4 radius zoom : ℝ) : Option (List Shape) :=
  match lineLineInf x1 y1 x2 y2 x3 y3 x4 y4 with
  | none => none
  | some ix =>
      if radius < 1e-6 then some [Shape.circle ix.1 ix.2 (4 / zoom)]
      else
        let p1 : Pt := (x1, y1)
        let p2 : Pt := (x2, y2)
        let p3 : Pt := (x3, y3)
        let p4 : Pt := (x4, y4)
        let far1 := farFrom p1 p2 ix
        let far2 := farFrom p3 p4 ix
        let lenV1 := Real.sqrt ((far1.1 - ix.1) ^ 2 + (far1.2 - ix.2) ^ 2)
        let lenV2 := Real.sqrt ((far2.1 - ix.1) ^ 2 + (far2.2 - ix.2) ^ 2)
        if lenV1 < 1e-10 ∨ lenV2 < 1e-10 then none
        else
          let u1 : Pt := ((far1.1 - ix.1) / lenV1, (far1.2 - ix.2) / lenV1)
          let u2 : Pt := ((far2.1 - ix.1) / lenV2, (far2.2 - ix.2) / lenV2)
          let n1 := pickNormal u1 u2
          let n2 := pickNormal u2 u1
          match lineLineInf (x1 + n1.1 * radius) (y1 + n1.2 * radius)
              (x2 + n1.1 * radius) (y2 + n1.2 * radius)
              (x3 + n2.1 * radius) (y3 + n2.2 * radius)
              (x4 + n2.1 * radius) (y4 + n2.2 * radius) with
          | none => none
          | some center =>
              let t1 := projectOnLine center p1 p2
              let t2 := projectOnLine center p3 p4
              let sa := jsAtan2 (t1.2 - center.2) (t1.1 - center.1) * 180 / Real.pi
              let ea := jsAtan2 (t2.2 - center.2) (t2.1 - center.1) * 180 / Real.pi
              let fin := arcSweepAngles sa ea center ix radius
              some [Shape.arc center.1 center.2 radius fin.1 fin.2,
                    Shape.circle center.1 center.2 (3 / zoom),
                    Shape.circle t1.1 t1.2 (3 / zoom),
                    Shape.circle t2.1 t2.2 (3 / zoom)]

/-! ## Theorems for C4, C5, C6 -/

/-- Core algebraic fact behind the wheel-zoom anchor invariant: for any
positive old and new zoom, the pan adjustment of `_onWheel` maps the old world
point under the anchor back to the anchor. -/
lemma wheel_anchor_core (zoom panx pany z2 px py : ℝ) (hz : 0 < zoom) (h2 : 0 < z2) :
    worldToScreen z2
      (panx + ((screenToWorld z2 panx pany px py).1 -
        (screenToWorld zoom panx pany px py).1) * z2)
      (pany + ((screenToWorld z2 panx pany px py).2 -
        (screenToWorld zoom panx pany px py).2) * z2)
      (screenToWorld zoom panx pany px py).1
      (screenToWorld zoom panx pany px py).2 = (px, py) := by
  have hz' : zoom ≠ 0 := ne_of_gt hz
  have h2' : z2 ≠ 0 := ne_of_gt h2
  simp only [screenToWorld, worldToScreen, if_pos hz, if_pos h2]
  refine Prod.ext ?_ ?_ <;> · simp only; field_simp; ring

/-- C4: for every zoom in `[minZoom, maxZoom]` and every pan, a wheel-zoom at
a screen anchor clamps the new zoom to `[0.02, 50]` and adjusts pan so that
the world point under the anchor before the zoom change maps back to exactly
the same screen anchor (exact arithmetic). -/
theorem c4_wheel_zoom_preserves_anchor (v : Viewport) (d : Bool) (px py : ℝ)
    (hlo : minZoom ≤ v.zoom) (hhi : v.zoom ≤ maxZoom) :
    (minZoom ≤ (onWheel v d px py).zoom ∧ (onWheel v d px py).zoom ≤ maxZoom) ∧
    worldToScreen (onWheel v d px py).zoom (onWheel v d px py).panx
      (onWheel v d px py).pany
      (screenToWorld v.zoom v.panx v.pany px py).1
      (screenToWorld v.zoom v.panx v.pany px py).2 = (px, py) := by
  have hz : (0 : ℝ) < v.zoom := lt_of_lt_of_le (by norm_num [minZoom]) hlo
  have h2lo : minZoom ≤ max minZoom (min maxZoom (v.zoom * (if d then (1.1 : ℝ) else 0.9))) :=
    le_max_left _ _
  have h2hi : max minZoom (min maxZoom (v.zoom * (if d then (1.1 : ℝ) else 0.9))) ≤ maxZoom := by
    apply max_le
    · norm_num [minZoom, maxZoom]
    · exact min_le_left _ _
  have h2pos : (0 : ℝ) < max minZoom (min maxZoom (v.zoom * (if d then (1.1 : ℝ) else 0.9))) :=
    lt_of_lt_of_le (by norm_num [minZoom]) h2lo
  refine ⟨⟨h2lo, h2hi⟩, ?_⟩
  have := wheel_anchor_core v.zoom v.panx v.pany
    (max minZoom (min maxZoom (v.zoom * (if d then (1.1 : ℝ) else 0.9)))) px py hz h2pos
  simpa only [onWheel] using this

/-- C4 witness: concrete instance at zoom 1, pan 0, anchor (3, 4). -/
theorem c4_wheel_zoom_preserves_anchor_witness :
    (minZoom ≤ (onWheel ⟨1, 0, 0⟩ true 3 4).zoom ∧
        (onWheel ⟨1, 0, 0⟩ true 3 4).zoom ≤ maxZoom) ∧
    worldToScreen (onWheel ⟨1, 0, 0⟩ true 3 4).zoom (onWheel ⟨1, 0, 0⟩ true 3 4).panx
      (onWheel ⟨1, 0, 0⟩ true 3 4).pany
      (screenToWorld 1 0 0 3 4).1 (screenToWorld 1 0 0 3 4).2 = (3, 4) :=
  c4_wheel_zoom_preserves_anchor ⟨1, 0, 0⟩ true 3 4
    (by norm_num [minZoom]) (by norm_num [maxZoom])

/-- C5 counterexample: at the finite, non-zero zoom `-1` (pan 0), the
round-trip `worldToScreen (screenToWorld p)` does not return `p`:
`screenToWorld` replaces the non-positive zoom by 1 while `worldToScreen`
multiplies by the raw zoom, giving `-1` instead of `1`. -/
theorem c5_roundtrip_fails_at_negative_zoom :
    ¬ (worldToScreen (-1) 0 0 (screenToWorld (-1) 0 0 1 0).1
        (screenToWorld (-1) 0 0 1 0).2 = (1, 0)) := by
  norm_num [screenToWorld, worldToScreen]

/-- C5 (amended): for every finite point and every finite, positive zoom and
finite pan, `worldToScreen (screenToWorld p) = p` exactly. -/
theorem c5_roundtrip_for_positive_zoom (zoom panx pany sx sy : ℝ) (h : 0 < zoom) :
    worldToScreen zoom panx pany (screenToWorld zoom panx pany sx sy).1
      (screenToWorld zoom panx pany sx sy).2 = (sx, sy) := by
  have hz : zoom ≠ 0 := ne_of_gt h
  simp only [screenToWorld, worldToScreen, if_pos h]
  refine Prod.ext ?_ ?_ <;> · simp only; field_simp

/-- C5 witness: concrete instance of the amended round-trip at zoom 2. -/
theorem c5_roundtrip_for_positive_zoom_witness :
    worldToScreen 2 5 7 (screenToWorld 2 5 7 9 11).1 (screenToWorld 2 5 7 9 11).2 = (9, 11) :=
  c5_roundtrip_for_positive_zoom 2 5 7 9 11 (by norm_num)

/-- C6 counterexample: with finite zoom 1 and a non-finite `pan.x`,
`worldToScreen` does not fall back to `pan = 0`: it propagates the non-finite
value, so the claim that both transforms fall back is false. -/
theorem c6_worldToScreen_propagates_nonfinite :
    ¬ jIsFinite (worldToScreenJ (some 1 : Option ℝ) (none : Option ℝ)
        (some 0 : Option ℝ) (some 0 : Option ℝ) (some 0 : Option ℝ)).1 := by
  simp [worldToScreenJ, jmul, jadd, jIsFinite]

/-- C6 (amended): `screenToWorld` falls back to `zoom = 1`, `pan = 0` when
zoom or pan are non-finite, and returns finite coordinates for every finite
input point; `worldToScreen` has no such guard and propagates a non-finite
`pan.x` to its output for every input. -/
theorem c6_screenToWorld_safe_worldToScreen_not :
    (∀ (zoom panx pany : JNum) (sx sy : ℝ),
        jIsFinite (screenToWorldJ zoom panx pany (some sx : Option ℝ) (some sy : Option ℝ)).1 ∧
        jIsFinite (screenToWorldJ zoom panx pany (some sx : Option ℝ) (some sy : Option ℝ)).2) ∧
    (∀ (zoom pany wx wy : JNum),
        ¬ jIsFinite (worldToScreenJ zoom (none : Option ℝ) pany wx wy).1) := by
  constructor
  · intro zoom panx pany sx sy
    have hz : ∃ z : ℝ, (if jIsFinite zoom ∧ jPos zoom then zoom else (some 1 : Option ℝ))
        = (some z : Option ℝ) ∧ z ≠ 0 := by
      by_cases h : jIsFinite zoom ∧ jPos zoom
      · cases zoom with
        | none => exact absurd h.2 (by simp [jPos])
        | some z => exact ⟨z, if_pos h, ne_of_gt h.2⟩
      · exact ⟨1, if_neg h, one_ne_zero⟩
    have hx : ∃ p : ℝ, (if jIsFinite panx then panx else (some 0 : Option ℝ))
        = (some p : Option ℝ) := by
      by_cases h : jIsFinite panx
      · cases panx with
        | none => exact absurd rfl h
        | some p => exact ⟨p, if_pos h⟩
      · exact ⟨0, if_neg h⟩
    have hy : ∃ p : ℝ, (if jIsFinite pany then pany else (some 0 : Option ℝ))
        = (some p : Option ℝ) := by
      by_cases h : jIsFinite pany
      · cases pany with
        | none => exact absurd rfl h
        | some p => exact ⟨p, if_pos h⟩
      · exact ⟨0, if_neg h⟩
    obtain ⟨z, hzeq, hz0⟩ := hz
    obtain ⟨p1, hp1⟩ := hx
    obtain ⟨p2, hp2⟩ := hy
    constructor
    · simp only [screenToWorldJ]
      rw [hzeq, hp1]
      simp [jsub, jdiv, hz0, jIsFinite]
    · simp only [screenToWorldJ]
      rw [hzeq, hp2]
      simp [jsub, jdiv, hz0, jIsFinite]
  · intro zoom pany wx wy
    simp only [worldToScreenJ]
    cases jmul wx zoom with
    | none => simp [jadd, jIsFinite]
    | some a => simp [jadd, jIsFinite]

/-! ## Theorems for C10 (hitTest ignores the hidden flag) -/

/-- C10: `hitTest` does not consult the transient `_hidden` flag — replacing
every shape's hidden flag by an arbitrary reassignment commutes with
`hitTest` — while `getShapesInBox` excludes hidden shapes. -/
theorem c10_hitTest_ignores_hidden :
    (∀ (shapes : List ShapeRec) (pos : Pt) (tolerance zoom : ℝ) (f : ShapeRec → Bool),
      hitTest (shapes.map fun s => ⟨s.id, f s, s.geom⟩) pos tolerance zoom
        = (hitTest shapes pos tolerance zoom).map fun s => ⟨s.id, f s, s.geom⟩) ∧
    (∀ (shapes : List ShapeRec) (x1 y1 x2 y2 : ℝ) (c : Bool) (s : ShapeRec),
      s ∈ getShapesInBox shapes x1 y1 x2 y2 c → s.hidden = false) := by
  constructor
  · intro shapes pos tolerance zoom f
    unfold hitTest
    rw [← List.map_reverse, List.find?_map]
    rfl
  · intro shapes x1 y1 x2 y2 c s hs
    unfold getShapesInBox at hs
    rw [List.mem_filter] at hs
    exact (of_decide_eq_true hs.2).1

/-- C10 witness: a concrete hidden-flag reassignment on a one-line drawing
commutes with `hitTest`, and a concrete shape selected by a window box is not
hidden. -/
theorem c10_hitTest_ignores_hidden_witness :
    (hitTest (([⟨1, false, Shape.line 0 0 10 0⟩] : List ShapeRec).map
          fun s => ⟨s.id, true, s.geom⟩) (0, 0) 5 1
      = (hitTest ([⟨1, false, Shape.line 0 0 10 0⟩] : List ShapeRec) (0, 0) 5 1).map
          fun s => ⟨s.id, true, s.geom⟩) ∧
    (⟨2, false, Shape.line 1 1 2 1⟩ : ShapeRec).hidden = false := by
  constructor
  · exact c10_hitTest_ignores_hidden.1 ([⟨1, false, Shape.line 0 0 10 0⟩] : List ShapeRec)
      (0, 0) 5 1 (fun _ => true)
  · exact c10_hitTest_ignores_hidden.2 [⟨2, false, Shape.line 1 1 2 1⟩] 0 0 10 10 false
      ⟨2, false, Shape.line 1 1 2 1⟩
      (by
        unfold getShapesInBox
        rw [List.mem_filter]
        refine ⟨List.mem_singleton.mpr rfl, decide_eq_true ?_⟩
        refine ⟨rfl, ?_⟩
        unfold isShapeInBox getBoundingBox
        simp only
        left
        norm_num)

/-! ## Theorems for C3 (box selection semantics) -/

/-- Distance-to-rectangle comparison versus its squared form, for a
non-negative radius. -/
lemma circle_dist_le_iff (cx cy r X Y : ℝ) (hr : 0 ≤ r) :
    Geometry.dist (cx, cy) (X, Y) ≤ r ↔
      (cx - X) * (cx - X) + (cy - Y) * (cy - Y) ≤ r * r := by
  unfold Geometry.dist
  rw [Real.sqrt_le_iff]
  constructor
  · rintro ⟨-, h⟩; nlinarith
  · intro h; exact ⟨hr, by nlinarith⟩

/-- A shape with no bounding box also fails the per-kind crossing test (only
empty polylines and dimensions lack a bounding box). -/
lemma shapeCrossesBox_of_no_bbox (s : Shape) (x1 y1 x2 y2 : ℝ)
    (h : getBoundingBox s = none) : ¬ shapeCrossesBox s x1 y1 x2 y2 := by
  cases s with
  | line a b c d => simp [getBoundingBox] at h
  | rectangle a b c d => simp [getBoundingBox] at h
  | circle cx cy r => simp [getBoundingBox] at h
  | arc cx cy r sa ea => simp [getBoundingBox] at h
  | ellipse cx cy rx ry sa ea => simp [getBoundingBox] at h
  | polyline pts closed =>
      cases pts with
      | nil => simp [shapeCrossesBox, getSegments, consecPairs, closingSeg]
      | cons p rest => simp [getBoundingBox, polyBBox] at h
  | text a b c d => simp [getBoundingBox] at h
  | dimension a b c d => simp [shapeCrossesBox]

/-- Window selection (`crossing = false`) keeps exactly the shapes whose full
bounding box lies inside the box. -/
lemma isShapeInBox_window_iff (s : Shape) (x1 y1 x2 y2 : ℝ) :
    isShapeInBox s x1 y1 x2 y2 false ↔ bboxInsideBox s x1 y1 x2 y2 := by
  unfold isShapeInBox bboxInsideBox
  cases h : getBoundingBox s with
  | none => exact Iff.rfl
  | some bb => simp only [Bool.false_eq_true, false_and, or_false]

/-- Crossing selection keeps a shape exactly when its bounding box is inside
or the per-kind crossing test passes. -/
lemma isShapeInBox_true_split (s : Shape) (x1 y1 x2 y2 : ℝ) :
    isShapeInBox s x1 y1 x2 y2 true ↔
      bboxInsideBox s x1 y1 x2 y2 ∨ shapeCrossesBox s x1 y1 x2 y2 := by
  unfold isShapeInBox bboxInsideBox
  cases h : getBoundingBox s with
  | none =>
      simp only [false_or]
      exact iff_of_false (fun hF => hF) (shapeCrossesBox_of_no_bbox s x1 y1 x2 y2 h)
  | some bb => simp only [true_and]

/-- The per-kind crossing test coincides with the spec-side disjunction of the
edge test and the circle-distance test (for a non-negative radius). -/
lemma shapeCrossesBox_iff (s : Shape) (x1 y1 x2 y2 : ℝ) (hr : nonnegRadius s) :
    shapeCrossesBox s x1 y1 x2 y2 ↔
      hasEdgeTouchingBox s x1 y1 x2 y2 ∨ circleReachesBox s x1 y1 x2 y2 := by
  cases s with
  | line a b c d => simp [shapeCrossesBox, hasEdgeTouchingBox, circleReachesBox]
  | rectangle a b c d => simp [shapeCrossesBox, hasEdgeTouchingBox, circleReachesBox]
  | polyline pts closed => simp [shapeCrossesBox, hasEdgeTouchingBox, circleReachesBox]
  | circle cx cy r =>
      have hr' : 0 ≤ r := hr
      simp only [shapeCrossesBox, hasEdgeTouchingBox, circleReachesBox, getSegments,
        circleTouchesBox, List.not_mem_nil, false_and, exists_false, false_or,
        circle_dist_le_iff cx cy r _ _ hr']
  | arc cx cy r sa ea =>
      have hr' : 0 ≤ r := hr
      simp only [shapeCrossesBox, hasEdgeTouchingBox, circleReachesBox, getSegments,
        circleTouchesBox, List.not_mem_nil, false_and, exists_false, false_or,
        circle_dist_le_iff cx cy r _ _ hr']
  | ellipse cx cy rx ry sa ea =>
      simp [shapeCrossesBox, hasEdgeTouchingBox, circleReachesBox, getSegments]
  | text a b c d =>
      simp [shapeCrossesBox, hasEdgeTouchingBox, circleReachesBox, getSegments]
  | dimension a b c d =>
      simp [shapeCrossesBox, hasEdgeTouchingBox, circleReachesBox, getSegments]

/-- Crossing selection (`crossing = true`) keeps exactly the shapes whose
bounding box is inside, or which have an edge touching the box, or which are
circles/arcs reaching the box. -/
lemma isShapeInBox_crossing_iff (s : Shape) (x1 y1 x2 y2 : ℝ)
    (hr : nonnegRadius s) :
    isShapeInBox s x1 y1 x2 y2 true ↔
      bboxInsideBox s x1 y1 x2 y2 ∨ hasEdgeTouchingBox s x1 y1 x2 y2 ∨
        circleReachesBox s x1 y1 x2 y2 := by
  rw [isShapeInBox_true_split, shapeCrossesBox_iff s x1 y1 x2 y2 hr]

/-- C3: a right-to-left drag (`x2 < x1`) is a crossing selection, otherwise a
window selection; window selection returns exactly the non-hidden shapes whose
full bounding box lies inside the box; crossing selection additionally returns
shapes with an edge segment touching the box and circles/arcs whose
closest-point-in-rectangle-to-center distance is at most the radius. -/
theorem c3_box_selection (shapes : List ShapeRec) (box : SelBox) (s : ShapeRec)
    (hr : nonnegRadius s.geom) :
    (box.x2 < box.x1 →
      selectToolBoxShapes shapes box =
        getShapesInBox shapes box.x1 box.y1 box.x2 box.y2 true) ∧
    (¬ box.x2 < box.x1 →
      selectToolBoxShapes shapes box =
        getShapesInBox shapes box.x1 box.y1 box.x2 box.y2 false) ∧
    (s ∈ getShapesInBox shapes box.x1 box.y1 box.x2 box.y2 false ↔
      s ∈ shapes ∧ s.hidden = false ∧
        bboxInsideBox s.geom box.x1 box.y1 box.x2 box.y2) ∧
    (s ∈ getShapesInBox shapes box.x1 box.y1 box.x2 box.y2 true ↔
      s ∈ shapes ∧ s.hidden = false ∧
        (bboxInsideBox s.geom box.x1 box.y1 box.x2 box.y2 ∨
         hasEdgeTouchingBox s.geom box.x1 box.y1 box.x2 box.y2 ∨
         circleReachesBox s.geom box.x1 box.y1 box.x2 box.y2)) := by
  refine ⟨?_, ?_, ?_, ?_⟩
  · intro h; simp [selectToolBoxShapes, h]
  · intro h; simp [selectToolBoxShapes, h]
  · rw [getShapesInBox, List.mem_filter, decide_eq_true_eq,
      isShapeInBox_window_iff]
  · rw [getShapesInBox, List.mem_filter, decide_eq_true_eq,
      isShapeInBox_crossing_iff _ _ _ _ _ hr]

/-- C3 witness: concrete instance — a left-to-right drag over a one-line
drawing is a window selection. -/
theorem c3_box_selection_witness :
    selectToolBoxShapes [⟨1, false, Shape.line 1 1 2 1⟩] ⟨0, 0, 10, 10⟩ =
      getShapesInBox [⟨1, false, Shape.line 1 1 2 1⟩] 0 0 10 10 false :=
  (c3_box_selection [⟨1, false, Shape.line 1 1 2 1⟩] ⟨0, 0, 10, 10⟩
    ⟨1, false, Shape.line 1 1 2 1⟩ trivial).2.1 (by norm_num)

/-! ## Theorems for C2 (snap priority: object snaps, never grid) -/

/-- Invariant of the snap accumulator: whatever candidate it holds is not of
kind `grid`. -/
def notGrid (acc : SnapAcc) : Prop :=
  ∀ sp, acc.best = some sp → sp.type ≠ SnapType.grid

lemma notGrid_checkPoint (wp : Pt) (acc : SnapAcc) (p : Pt) (t : SnapType)
    (hacc : notGrid acc) (ht : t ≠ SnapType.grid) :
    notGrid (checkPoint wp acc p t) := by
  simp only [checkPoint]
  split_ifs with h
  · intro sp hsp
    obtain rfl : (⟨t, p⟩ : SnapPoint) = sp := Option.some.inj hsp
    exact ht
  · exact hacc

lemma notGrid_runChecks (wp : Pt) (cands : List SnapPoint) :
    ∀ acc : SnapAcc, notGrid acc → (∀ c ∈ cands, c.type ≠ SnapType.grid) →
      notGrid (runChecks wp acc cands) := by
  induction cands with
  | nil => intro acc h _; exact h
  | cons c cs ih =>
      intro acc h hc
      unfold runChecks
      rw [List.foldl_cons]
      exact ih _ (notGrid_checkPoint wp acc c.point c.type h
          (hc c (List.mem_cons_self c cs))) fun c' h' => hc c' (List.mem_cons_of_mem _ h')

lemma notGrid_ite (P : Prop) [Decidable P] (a b : SnapAcc)
    (ha : notGrid a) (hb : notGrid b) : notGrid (if P then a else b) := by
  split_ifs <;> assumption

lemma polySnapPts_types (ep mp : Bool) (pts : List Pt) :
    ∀ c ∈ polySnapPts ep mp pts, c.type ≠ SnapType.grid := by
  induction pts with
  | nil => simp [polySnapPts]
  | cons p rest ih =>
      cases rest with
      | nil =>
          intro c hc
          unfold polySnapPts at hc
          split_ifs at hc <;> fin_cases hc <;> simp
      | cons q rest2 =>
          intro c hc
          unfold polySnapPts at hc
          rw [List.mem_append] at hc
          rcases hc with h | h
          · rw [List.mem_append] at h
            rcases h with h | h <;> (split_ifs at h <;> fin_cases h <;> simp)
          · exact ih c h

lemma closingMid_types (pts : List Pt) :
    ∀ c ∈ closingMid pts, c.type ≠ SnapType.grid := by
  unfold closingMid
  cases h1 : pts.getLast? <;> cases h2 : pts.head? <;> simp

lemma getSnapPointsForShape_types (s : Shape) (st : SnapSettings) :
    ∀ c ∈ getSnapPointsForShape s st, c.type ≠ SnapType.grid := by
  cases s with
  | line x1 y1 x2 y2 =>
      intro c hc
      simp only [getSnapPointsForShape, List.mem_append] at hc
      rcases hc with h | h <;> (split_ifs at h <;> fin_cases h <;> simp)
  | rectangle x y w h =>
      intro c hc
      simp only [getSnapPointsForShape, List.mem_append] at hc
      rcases hc with (h | h) | h <;> (split_ifs at h <;> fin_cases h <;> simp)
  | circle cx cy r =>
      intro c hc
      simp only [getSnapPointsForShape, List.mem_append] at hc
      rcases hc with h | h <;> (split_ifs at h <;> fin_cases h <;> simp)
  | arc cx cy r sa ea =>
      intro c hc
      simp only [getSnapPointsForShape, List.mem_append] at hc
      rcases hc with (h | h) | h
      · split_ifs at h <;> fin_cases h <;> simp
      · split_ifs at h
        · rw [List.mem_map] at h
          obtain ⟨a, -, rfl⟩ := h
          simp
        · fin_cases h
      · split_ifs at h
        · rw [List.mem_filterMap] at h
          obtain ⟨a, -, ha⟩ := h
          split_ifs at ha
          obtain rfl := Option.some.inj ha
          simp
        · fin_cases h
  | ellipse cx cy rx ry sa ea =>
      intro c hc
      simp only [getSnapPointsForShape, List.mem_append] at hc
      rcases hc with h | h
      · split_ifs at h <;> fin_cases h <;> simp
      · split_ifs at h
        · rw [List.mem_filterMap] at h
          obtain ⟨a, -, ha⟩ := h
          split_ifs at ha
          obtain rfl := Option.some.inj ha
          simp
        · fin_cases h
  | polyline pts closed =>
      intro c hc
      simp only [getSnapPointsForShape, List.mem_append] at hc
      rcases hc with h | h
      · exact polySnapPts_types _ _ pts c h
      · split_ifs at h
        · exact closingMid_types pts c h
        · fin_cases h
  | text a b l f => simp [getSnapPointsForShape]
  | dimension a b e f => simp [getSnapPointsForShape]

lemma staticCands_types (shapes : List ShapeRec) (st : SnapSettings) :
    ∀ c ∈ staticCands shapes st, c.type ≠ SnapType.grid := by
  intro c hc
  rw [staticCands, List.mem_flatMap] at hc
  obtain ⟨s, -, hs⟩ := hc
  split_ifs at hs
  · fin_cases hs
  · exact getSnapPointsForShape_types s.geom st c hs

lemma intersectionCands_types (shapes : List ShapeRec) :
    ∀ c ∈ intersectionCands shapes, c.type ≠ SnapType.grid := by
  intro c hc
  rw [intersectionCands, List.mem_flatMap] at hc
  obtain ⟨pr, -, hp⟩ := hc
  split_ifs at hp
  · fin_cases hp
  · rw [List.mem_map] at hp
    obtain ⟨pt, -, rfl⟩ := hp
    simp

lemma perpCands_types (shapes : List ShapeRec) (bp : Pt) :
    ∀ c ∈ perpCands shapes bp, c.type ≠ SnapType.grid := by
  intro c hc
  rw [perpCands, List.mem_flatMap] at hc
  obtain ⟨s, -, hs⟩ := hc
  split_ifs at hs
  · fin_cases hs
  · rw [List.mem_map] at hs
    obtain ⟨seg, -, rfl⟩ := hs
    simp

lemma tangentCands_types (shapes : List ShapeRec) (bp : Pt) :
    ∀ c ∈ tangentCands shapes bp, c.type ≠ SnapType.grid := by
  intro c hc
  rw [tangentCands, List.mem_flatMap] at hc
  obtain ⟨s, -, hs⟩ := hc
  split_ifs at hs
  · fin_cases hs
  · cases hg : s.geom <;> rw [hg] at hs <;> dsimp only at hs <;>
      first
        | fin_cases hs
        | (rw [List.mem_map] at hs
           obtain ⟨tp, -, rfl⟩ := hs
           simp)

lemma extensionCands_types (shapes : List ShapeRec) (wp : Pt) (tol zoom : ℝ) :
    ∀ c ∈ extensionCands shapes wp tol zoom, c.type ≠ SnapType.grid := by
  intro c hc
  rw [extensionCands, List.mem_flatMap] at hc
  obtain ⟨s, -, hs⟩ := hc
  split_ifs at hs
  · fin_cases hs
  · cases hg : s.geom <;> rw [hg] at hs <;> dsimp only at hs <;>
      first
        | fin_cases hs
        | (split_ifs at hs <;> fin_cases hs <;> simp)

lemma nearestCands_types (shapes : List ShapeRec) (p : Pt) :
    ∀ c ∈ nearestCands shapes p, c.type ≠ SnapType.grid := by
  intro c hc
  rw [nearestCands, List.mem_flatMap] at hc
  obtain ⟨s, -, hs⟩ := hc
  split_ifs at hs
  · fin_cases hs
  · rw [List.mem_map] at hs
    obtain ⟨seg, -, rfl⟩ := hs
    simp
  · cases hg : s.geom <;> rw [hg] at hs <;> dsimp only at hs <;>
      first
        | fin_cases hs
        | (split_ifs at hs <;> fin_cases hs <;> simp)

lemma checkPoint_when_zero (wp p : Pt) (t : SnapType) (b : Option SnapPoint) :
    checkPoint wp ⟨b, 0⟩ p t = ⟨b, 0⟩ := by
  simp only [checkPoint]
  rw [if_neg]
  exact not_lt.mpr (Real.sqrt_nonneg _)

lemma runChecks_when_zero (wp : Pt) (b : Option SnapPoint) (cands : List SnapPoint) :
    runChecks wp ⟨b, 0⟩ cands = ⟨b, 0⟩ := by
  induction cands with
  | nil => rfl
  | cons c cs ih =>
      unfold runChecks
      rw [List.foldl_cons, checkPoint_when_zero]
      exact ih

/-- C2: the snap resolver never produces a candidate of kind `grid`;
`applySnap` returns an object snap verbatim (no grid rounding) and applies
grid rounding only when no object snap was found; and in the concrete
scenario of a line endpoint at the grid point `(0, 0)` with all snap types
enabled and the cursor at that point, the resolver returns the endpoint
snap. -/
theorem c2_snap_priority :
    (∀ (shapes : List ShapeRec) (bp : Option Pt) (zoom : ℝ) (wp : Pt)
        (tolerance : ℝ) (st : SnapSettings) (sp : SnapPoint),
        findSnapPoint shapes bp zoom wp tolerance st = some sp →
          sp.type ≠ SnapType.grid) ∧
    (∀ (gridSnap : Bool) (gridSize : ℝ) (sp : SnapPoint) (world : Pt),
        applySnap true gridSnap gridSize (some sp) world = sp.point) ∧
    (∀ (gridSize : ℝ) (world : Pt), gridSize ≠ 0 →
        applySnap true true gridSize none world =
          (jsRound (world.1 / gridSize) * gridSize,
           jsRound (world.2 / gridSize) * gridSize)) ∧
    findSnapPoint [⟨1, false, Shape.line 0 0 10 0⟩] none 1 (0, 0) 15 none =
      some ⟨SnapType.endpoint, (0, 0)⟩ := by
  refine ⟨?_, ?_, ?_, ?_⟩
  · intro shapes bp zoom wp tolerance st sp h
    cases bp with
    | none =>
        simp only [findSnapPoint] at h
        set a1 := runChecks wp ⟨none, tolerance / zoom⟩ (staticCands shapes st) with ha1
        set a2 := if isEnabled st SnapType.intersection = true ∧
            (a1.best = none ∨ a1.minDist > 5 / zoom) then
          runChecks wp a1 (intersectionCands shapes) else a1 with ha2
        set a4 := if isEnabled st SnapType.extension = true then
          runChecks wp a2 (extensionCands shapes wp (tolerance / zoom) zoom)
          else a2 with ha4
        set a5 := if isEnabled st SnapType.nearest = true ∧
            (a4.best = none ∨ a4.minDist > 8 / zoom) then
          runChecks wp a4 (nearestCands shapes wp) else a4 with ha5
        have h1 : notGrid a1 := by
          rw [ha1]
          exact notGrid_runChecks _ _ _ (fun s hs => nomatch hs) (staticCands_types shapes st)
        have h2 : notGrid a2 := by
          rw [ha2]
          exact notGrid_ite _ _ _
            (notGrid_runChecks _ _ _ h1 (intersectionCands_types shapes)) h1
        have h4 : notGrid a4 := by
          rw [ha4]
          exact notGrid_ite _ _ _
            (notGrid_runChecks _ _ _ h2 (extensionCands_types shapes wp _ zoom)) h2
        have h5 : notGrid a5 := by
          rw [ha5]
          exact notGrid_ite _ _ _
            (notGrid_runChecks _ _ _ h4 (nearestCands_types shapes wp)) h4
        exact h5 sp h
    | some bpt =>
        simp only [findSnapPoint] at h
        set a1 := runChecks wp ⟨none, tolerance / zoom⟩ (staticCands shapes st) with ha1
        set a2 := if isEnabled st SnapType.intersection = true ∧
            (a1.best = none ∨ a1.minDist > 5 / zoom) then
          runChecks wp a1 (intersectionCands shapes) else a1 with ha2
        set aP := if isEnabled st SnapType.perpendicular = true then
          runChecks wp a2 (perpCands shapes bpt) else a2 with haP
        set a3 := if isEnabled st SnapType.tangent = true then
          runChecks wp aP (tangentCands shapes bpt) else aP with ha3
        set a4 := if isEnabled st SnapType.extension = true then
          runChecks wp a3 (extensionCands shapes wp (tolerance / zoom) zoom)
          else a3 with ha4
        set a5 := if isEnabled st SnapType.nearest = true ∧
            (a4.best = none ∨ a4.minDist > 8 / zoom) then
          runChecks wp a4 (nearestCands shapes wp) else a4 with ha5
        have h1 : notGrid a1 := by
          rw [ha1]
          exact notGrid_runChecks _ _ _ (fun s hs => nomatch hs) (staticCands_types shapes st)
        have h2 : notGrid a2 := by
          rw [ha2]
          exact notGrid_ite _ _ _
            (notGrid_runChecks _ _ _ h1 (intersectionCands_types shapes)) h1
        have hP : notGrid aP := by
          rw [haP]
          exact notGrid_ite _ _ _
            (notGrid_runChecks _ _ _ h2 (perpCands_types shapes bpt)) h2
        have h3 : notGrid a3 := by
          rw [ha3]
          exact notGrid_ite _ _ _
            (notGrid_runChecks _ _ _ hP (tangentCands_types shapes bpt)) hP
        have h4 : notGrid a4 := by
          rw [ha4]
          exact notGrid_ite _ _ _
            (notGrid_runChecks _ _ _ h3 (extensionCands_types shapes wp _ zoom)) h3
        have h5 : notGrid a5 := by
          rw [ha5]
          exact notGrid_ite _ _ _
            (notGrid_runChecks _ _ _ h4 (nearestCands_types shapes wp)) h4
        exact h5 sp h
  · intro gridSnap gridSize sp world
    simp [applySnap]
  · intro gridSize world hg
    simp [applySnap, hg]
  · have hstatic : staticCands [⟨1, false, Shape.line 0 0 10 0⟩] none =
        [⟨SnapType.endpoint, (0, 0)⟩, ⟨SnapType.endpoint, (10, 0)⟩,
         ⟨SnapType.midpoint, (5, 0)⟩] := by
      simp [staticCands, getSnapPointsForShape, isEnabled]
      norm_num
    have hfirst : checkPoint ((0 : ℝ), (0 : ℝ)) ⟨none, 15 / 1⟩ (0, 0) SnapType.endpoint =
        ⟨some ⟨SnapType.endpoint, (0, 0)⟩, 0⟩ := by
      simp only [checkPoint]
      norm_num
    have hacc1 : runChecks ((0 : ℝ), (0 : ℝ)) ⟨none, 15 / 1⟩
        [⟨SnapType.endpoint, (0, 0)⟩, ⟨SnapType.endpoint, (10, 0)⟩,
         ⟨SnapType.midpoint, (5, 0)⟩] =
        ⟨some ⟨SnapType.endpoint, (0, 0)⟩, 0⟩ := by
      unfold runChecks
      rw [List.foldl_cons, List.foldl_cons, List.foldl_cons, List.foldl_nil]
      dsimp only
      rw [hfirst, checkPoint_when_zero, checkPoint_when_zero]
    simp only [findSnapPoint]
    rw [hstatic, hacc1]
    simp [runChecks_when_zero]

/-- C2 witness: the concretely-resolved endpoint snap is not a grid snap, and
with no object snap grid rounding applies at a concrete cursor position. -/
theorem c2_snap_priority_witness :
    (⟨SnapType.endpoint, ((0 : ℝ), (0 : ℝ))⟩ : SnapPoint).type ≠ SnapType.grid ∧
    applySnap true true 10 none (3, 7) =
      (jsRound ((3 : ℝ) / 10) * 10, jsRound ((7 : ℝ) / 10) * 10) :=
  ⟨c2_snap_priority.1 _ _ _ _ _ _ _ c2_snap_priority.2.2.2,
   c2_snap_priority.2.2.1 10 (3, 7) (by norm_num)⟩

/-! ## Theorems for C8 (Escape behaviour of the command tools) -/

/-- C8 counterexample: with the polyline tool active, Escape discards the
preview and the picked points but does not return control to the selection
tool — the polyline tool stays active. -/
theorem c8_polyline_escape_keeps_tool :
    (onKeyEscape samplePolyApp).engine.preview = none ∧
    (onKeyEscape samplePolyApp).currentTool = ToolName.polyline ∧
    (onKeyEscape samplePolyApp).currentTool ≠ ToolName.select := by
  refine ⟨rfl, rfl, ?_⟩
  simp [onKeyEscape, samplePolyApp, polylineEscape]

/-- C8 (amended): for the command tools Scale, Transform, Array and Fillet,
Escape discards the preview and returns control to the selection tool in any
internal state; for the multi-point Polyline tool, Escape discards the
preview and resets the picked points but leaves the tool active. -/
theorem c8_escape_behavior (s : AppState) :
    ((s.currentTool = ToolName.scale ∨ s.currentTool = ToolName.transform ∨
        s.currentTool = ToolName.array ∨ s.currentTool = ToolName.fillet) →
      (onKeyEscape s).engine.preview = none ∧
      (onKeyEscape s).engine.snapBasePoint = none ∧
      (onKeyEscape s).currentTool = ToolName.select) ∧
    (s.currentTool = ToolName.polyline →
      (onKeyEscape s).engine.preview = none ∧
      (onKeyEscape s).engine.snapBasePoint = none ∧
      (onKeyEscape s).polyline.points = [] ∧
      (onKeyEscape s).currentTool = ToolName.polyline) := by
  constructor
  · rintro (h | h | h | h) <;>
      simp [onKeyEscape, h, scaleEscape, transformEscape, arrayEscape, filletEscape,
        setToolSelect]
  · intro h
    simp [onKeyEscape, h, polylineEscape]

/-- C8 witness: concrete instance — Escape in the scale tool's copy-mode
state discards the preview and activates the selection tool. -/
theorem c8_escape_behavior_witness :
    (onKeyEscape sampleScaleCopyApp).engine.preview = none ∧
    (onKeyEscape sampleScaleCopyApp).engine.snapBasePoint = none ∧
    (onKeyEscape sampleScaleCopyApp).currentTool = ToolName.select :=
  (c8_escape_behavior sampleScaleCopyApp).1 (Or.inl rfl)

/-! ## Theorems for C9 (finalization failure handling) -/

/-- C9 counterexample: in copy mode, when the copy call resolves successfully
and the subsequent scale call rejects, the copied shapes remain committed
with no scale applied (a partial commit), while the machine's state is kept
and the error logged. -/
theorem c9_copy_mode_partial_commit :
    (finishScale sampleScaleCopyApp 2 (Except.ok ⟨true, some [2]⟩)
        (Except.error ())).2.1 = [ApiCall.copyShapes [1] 0 0] ∧
    (finishScale sampleScaleCopyApp 2 (Except.ok ⟨true, some [2]⟩)
        (Except.error ())).1 = sampleScaleCopyApp ∧
    (finishScale sampleScaleCopyApp 2 (Except.ok ⟨true, some [2]⟩)
        (Except.error ())).2.2 = true := by
  refine ⟨?_, ?_, ?_⟩ <;> rfl

/-- C9 (amended): on any rejected collaborator call, both finalizers log the
error and leave the whole application state (state tag, base point, shape
snapshot) unchanged for retry; in direct (non-copy) mode nothing is
committed on failure; in copy mode a successful copy followed by a failing
scale/translate/rotate leaves exactly the copy committed. -/
theorem c9_finish_failure_keeps_state (s : AppState) (factor : ℝ)
    (copyOut : Except Unit CopyResponse) (scaleOut opOut : Except Unit Unit) :
    (s.scale.isCopy = true →
      finishScale s factor (Except.error ()) scaleOut = (s, [], true)) ∧
    (s.scale.isCopy = true → ∀ newIds : List ℕ,
      finishScale s factor (Except.ok ⟨true, some newIds⟩) (Except.error ()) =
        (s, [ApiCall.copyShapes s.scale.ids 0 0], true)) ∧
    (s.scale.isCopy = false →
      finishScale s factor copyOut (Except.error ()) = (s, [], true)) ∧
    (s.transform.isCopy = true →
      transformFinish s (Except.error ()) opOut = (s, [], true)) ∧
    (s.transform.isCopy = true → ∀ newIds : List ℕ,
      transformFinish s (Except.ok ⟨true, some newIds⟩) (Except.error ()) =
        (s, [ApiCall.copyShapes s.transform.ids 0 0], true)) ∧
    (s.transform.isCopy = false →
      transformFinish s copyOut (Except.error ()) = (s, [], true)) := by
  refine ⟨?_, ?_, ?_, ?_, ?_, ?_⟩
  · intro h
    simp [finishScale, h]
  · intro h newIds
    cases hb : s.scale.basePoint <;> simp [finishScale, h, hb]
  · intro h
    cases hb : s.scale.basePoint <;>
      cases copyOut <;> simp [finishScale, h, hb]
  · intro h
    simp [transformFinish, h]
  · intro h newIds
    cases hm : s.transform.mode <;> cases hb : s.transform.basePoint <;>
      simp [transformFinish, h, hm, hb]
  · intro h
    cases hm : s.transform.mode <;> cases hb : s.transform.basePoint <;>
      cases copyOut <;> simp [transformFinish, h, hm, hb]

/-- C9 witness: concrete instance — a rejected copy call in copy mode leaves
the concrete scale state untouched and commits nothing. -/
theorem c9_finish_failure_keeps_state_witness :
    finishScale sampleScaleCopyApp 2 (Except.error ()) (Except.error ()) =
      (sampleScaleCopyApp, [], true) :=
  (c9_finish_failure_keeps_state sampleScaleCopyApp 2 (Except.error ())
    (Except.error ()) (Except.error ())).1 rfl

/-! ## Theorems for C7 (tangent points from an external point) -/

lemma jsAtan2_cos_sin (y x : ℝ) (h : ¬(x = 0 ∧ y = 0)) :
    Real.cos (jsAtan2 y x) = x / Real.sqrt (x ^ 2 + y ^ 2) ∧
    Real.sin (jsAtan2 y x) = y / Real.sqrt (x ^ 2 + y ^ 2) := by
  have hsum : 0 < x ^ 2 + y ^ 2 := by
    rcases eq_or_ne x 0 with hx | hx
    · have hy : y ≠ 0 := fun hy => h ⟨hx, hy⟩
      have : 0 < y ^ 2 := by positivity
      nlinarith [sq_nonneg x]
    · have : 0 < x ^ 2 := by positivity
      nlinarith [sq_nonneg y]
  have hroot : 0 < Real.sqrt (x ^ 2 + y ^ 2) := Real.sqrt_pos.mpr hsum
  have hroot' : Real.sqrt (x ^ 2 + y ^ 2) ≠ 0 := ne_of_gt hroot
  unfold jsAtan2
  split_ifs with h1 h2 h3 h4 h5
  · have hx0 : x ≠ 0 := ne_of_gt h1
    have hfrac : Real.sqrt (1 + (y / x) ^ 2) = Real.sqrt (x ^ 2 + y ^ 2) / x := by
      rw [show 1 + (y / x) ^ 2 = (x ^ 2 + y ^ 2) / x ^ 2 by field_simp]
      rw [Real.sqrt_div' _ (sq_nonneg x), Real.sqrt_sq h1.le]
    constructor
    · rw [Real.cos_arctan, hfrac]
      field_simp
    · rw [Real.sin_arctan, hfrac]
      field_simp
  · have hx0 : x ≠ 0 := ne_of_lt h2
    have habs : Real.sqrt (x ^ 2) = -x := by
      rw [Real.sqrt_sq_eq_abs]; exact abs_of_neg h2
    have hfrac : Real.sqrt (1 + (y / x) ^ 2) = Real.sqrt (x ^ 2 + y ^ 2) / (-x) := by
      rw [show 1 + (y / x) ^ 2 = (x ^ 2 + y ^ 2) / x ^ 2 by field_simp]
      rw [Real.sqrt_div' _ (sq_nonneg x), habs]
    constructor
    · rw [Real.cos_add_pi, Real.cos_arctan, hfrac]
      field_simp
    · rw [Real.sin_add_pi, Real.sin_arctan, hfrac]
      field_simp
      ring
  · have hx0 : x ≠ 0 := ne_of_lt h2
    have habs : Real.sqrt (x ^ 2) = -x := by
      rw [Real.sqrt_sq_eq_abs]; exact abs_of_neg h2
    have hfrac : Real.sqrt (1 + (y / x) ^ 2) = Real.sqrt (x ^ 2 + y ^ 2) / (-x) := by
      rw [show 1 + (y / x) ^ 2 = (x ^ 2 + y ^ 2) / x ^ 2 by field_simp]
      rw [Real.sqrt_div' _ (sq_nonneg x), habs]
    constructor
    · rw [Real.cos_sub_pi, Real.cos_arctan, hfrac]
      field_simp
    · rw [Real.sin_sub_pi, Real.sin_arctan, hfrac]
      field_simp
      ring
  · have hx0 : x = 0 := le_antisymm (not_lt.mp h1) (not_lt.mp h2)
    subst hx0
    have hy : Real.sqrt (0 ^ 2 + y ^ 2) = y := by
      rw [show (0 : ℝ) ^ 2 + y ^ 2 = y ^ 2 by ring, Real.sqrt_sq h4.le]
    constructor
    · rw [Real.cos_pi_div_two, hy]
      simp
    · rw [Real.sin_pi_div_two, hy]
      rw [div_self (ne_of_gt h4)]
  · have hx0 : x = 0 := le_antisymm (not_lt.mp h1) (not_lt.mp h2)
    subst hx0
    have hy : Real.sqrt (0 ^ 2 + y ^ 2) = -y := by
      rw [show (0 : ℝ) ^ 2 + y ^ 2 = y ^ 2 by ring, Real.sqrt_sq_eq_abs]
      exact abs_of_neg h5
    constructor
    · rw [Real.cos_neg, Real.cos_pi_div_two, hy]
      simp
    · rw [Real.sin_neg, Real.sin_pi_div_two, hy]
      rw [div_neg, div_self (ne_of_lt h5)]
  · exfalso
    have hx0 : x = 0 := le_antisymm (not_lt.mp h1) (not_lt.mp h2)
    have hy0 : y = 0 := le_antisymm (not_lt.mp h4) (not_lt.mp h5)
    exact h ⟨hx0, hy0⟩

lemma tangent_point_spec (px py cx cy r θ : ℝ) (hr : 0 ≤ r)
    (hθ : Real.cos θ * (cx - px) + Real.sin θ * (cy - py) = r) :
    Geometry.dist (cx - r * Real.cos θ, cy - r * Real.sin θ) (cx, cy) = r ∧
    ((cx - r * Real.cos θ) - px) * ((cx - r * Real.cos θ) - cx) +
      ((cy - r * Real.sin θ) - py) * ((cy - r * Real.sin θ) - cy) = 0 := by
  have hpyth := Real.sin_sq_add_cos_sq θ
  constructor
  · unfold Geometry.dist
    rw [show (cx - (cx - r * Real.cos θ)) ^ 2 + (cy - (cy - r * Real.sin θ)) ^ 2 = r ^ 2 by
      nlinarith]
    exact Real.sqrt_sq hr
  · linear_combination (-r) * hθ + r ^ 2 * hpyth

lemma tangent_angle_key (px py cx cy r D : ℝ)
    (hD : D = Real.sqrt ((cx - px) ^ 2 + (cy - py) ^ 2))
    (hDpos : 0 < D) (hr0 : 0 ≤ r) (hrD : r ≤ D) :
    Real.cos (jsAtan2 (cy - py) (cx - px) + Real.arccos (r / D)) * (cx - px) +
      Real.sin (jsAtan2 (cy - py) (cx - px) + Real.arccos (r / D)) * (cy - py) = r ∧
    Real.cos (jsAtan2 (cy - py) (cx - px) - Real.arccos (r / D)) * (cx - px) +
      Real.sin (jsAtan2 (cy - py) (cx - px) - Real.arccos (r / D)) * (cy - py) = r := by
  have hne : ¬(cx - px = 0 ∧ cy - py = 0) := by
    rintro ⟨h1, h2⟩
    have h0 : ((0 : ℝ)) ^ 2 + (0 : ℝ) ^ 2 = 0 := by norm_num
    rw [h1, h2, h0, Real.sqrt_zero] at hD
    linarith
  obtain ⟨hca, hsa⟩ := jsAtan2_cos_sin (cy - py) (cx - px) hne
  rw [← hD] at hca hsa
  have hco : Real.cos (Real.arccos (r / D)) = r / D :=
    Real.cos_arccos (le_trans (by norm_num) (div_nonneg hr0 hDpos.le))
      ((div_le_one hDpos).mpr hrD)
  have hD2 : D ^ 2 = (cx - px) ^ 2 + (cy - py) ^ 2 := by
    rw [hD]; exact Real.sq_sqrt (by positivity)
  have hDne : D ≠ 0 := ne_of_gt hDpos
  constructor
  · rw [Real.cos_add, Real.sin_add, hca, hsa, hco]
    field_simp
    linear_combination (-(r * D)) * hD2
  · rw [Real.cos_sub, Real.sin_sub, hca, hsa, hco]
    field_simp
    linear_combination (-(r * D)) * hD2

/-- C7 counterexample: a point strictly outside the circle but within the
`1e-10` on-circle tolerance band — the code returns the point itself (one
point) rather than two tangent points, so the claim's "otherwise exactly two
tangent points" fails as stated. -/
theorem c7_near_circle_counterexample :
    5 < Geometry.dist ((5 + 1e-11, 0) : Pt) ((0, 0) : Pt) ∧
    (Geometry.calculateTangentPoints (5 + 1e-11, 0) (0, 0) 5).length = 1 := by
  have harg : ((0 : ℝ) - (5 + 1e-11)) * ((0 : ℝ) - (5 + 1e-11)) +
      ((0 : ℝ) - 0) * ((0 : ℝ) - 0) = (5 + 1e-11) ^ 2 := by norm_num
  have harg2 : ((0 : ℝ) - (5 + 1e-11)) ^ 2 + ((0 : ℝ) - 0) ^ 2 = (5 + 1e-11) ^ 2 := by
    norm_num
  have hsq : Real.sqrt (((5 : ℝ) + 1e-11) ^ 2) = 5 + 1e-11 :=
    Real.sqrt_sq (by norm_num)
  constructor
  · unfold Geometry.dist
    simp only
    rw [harg2, hsq]
    norm_num
  · simp only [Geometry.calculateTangentPoints]
    rw [harg, hsq]
    rw [if_neg (by norm_num), if_pos (by rw [abs_of_nonneg (by norm_num)]; norm_num)]
    rfl

/-- C7 (amended): if the anchor is strictly inside the circle there are no
tangent points; if its distance to the center is within `1e-10` of the radius
(and not inside) the anchor itself is the unique returned point; when the
distance exceeds the radius by at least `1e-10`, exactly two points are
returned, each at distance `radius` from the center and with the
anchor-to-tangent segment perpendicular to the tangent-to-center direction;
for anchor `(0,10)`, center `(0,0)`, radius `5` the two points are
`(∓5√3/2, 5/2)`, reflections of each other across the Y-axis. -/
theorem c7_tangent_points (p c : Pt) (r : ℝ) (hr : 0 ≤ r) :
    (Geometry.dist p c < r → Geometry.calculateTangentPoints p c r = []) ∧
    (¬ Geometry.dist p c < r → |Geometry.dist p c - r| < 1e-10 →
      Geometry.calculateTangentPoints p c r = [p]) ∧
    (r + 1e-10 ≤ Geometry.dist p c →
      (Geometry.calculateTangentPoints p c r).length = 2 ∧
      ∀ q ∈ Geometry.calculateTangentPoints p c r,
        Geometry.dist q c = r ∧
        (q.1 - p.1) * (q.1 - c.1) + (q.2 - p.2) * (q.2 - c.2) = 0) ∧
    Geometry.calculateTangentPoints (0, 10) (0, 0) 5 =
      [(-(5 * Real.sqrt 3 / 2), 5 / 2), (5 * Real.sqrt 3 / 2, 5 / 2)] := by
  obtain ⟨px, py⟩ := p
  obtain ⟨cx, cy⟩ := c
  have hd : Real.sqrt ((cx - px) * (cx - px) + (cy - py) * (cy - py)) =
      Geometry.dist (px, py) (cx, cy) := by
    unfold Geometry.dist
    exact congrArg Real.sqrt (by ring)
  refine ⟨?_, ?_, ?_, ?_⟩
  · intro h
    simp only [Geometry.calculateTangentPoints]
    rw [hd, if_pos h]
  · intro h1 h2
    simp only [Geometry.calculateTangentPoints]
    rw [hd, if_neg h1, if_pos h2]
  · intro hfar
    have hDpos : 0 < Geometry.dist (px, py) (cx, cy) := by
      have : (0 : ℝ) < r + 1e-10 := by positivity
      linarith
    have hnot1 : ¬ Geometry.dist (px, py) (cx, cy) < r := by
      push_neg
      have : (0 : ℝ) < 1e-10 := by norm_num
      linarith
    have hnot2 : ¬ |Geometry.dist (px, py) (cx, cy) - r| < 1e-10 := by
      rw [abs_of_nonneg (by linarith)]
      push_neg
      linarith
    have hkey := tangent_angle_key px py cx cy r (Geometry.dist (px, py) (cx, cy)) rfl
      hDpos hr (by linarith)
    simp only [Geometry.calculateTangentPoints]
    rw [hd, if_neg hnot1, if_neg hnot2]
    refine ⟨rfl, ?_⟩
    intro q hq
    rcases List.mem_cons.mp hq with rfl | hq2
    · exact tangent_point_spec px py cx cy r _ hr hkey.1
    · rcases List.mem_cons.mp hq2 with rfl | hq3
      · exact tangent_point_spec px py cx cy r _ hr hkey.2
      · exact absurd hq3 (List.not_mem_nil q)
  · have harg : ((0 : ℝ) - 0) * ((0 : ℝ) - 0) + ((0 : ℝ) - 10) * ((0 : ℝ) - 10) =
        (10 : ℝ) ^ 2 := by norm_num
    have hsq : Real.sqrt ((10 : ℝ) ^ 2) = 10 := Real.sqrt_sq (by norm_num)
    have hang : jsAtan2 ((0 : ℝ) - 10) ((0 : ℝ) - 0) = -(Real.pi / 2) := by
      unfold jsAtan2
      norm_num
    have harc : Real.arccos ((5 : ℝ) / 10) = Real.pi / 3 := by
      rw [show (5 : ℝ) / 10 = 1 / 2 by norm_num, ← Real.cos_pi_div_three]
      exact Real.arccos_cos (by positivity) (by nlinarith [Real.pi_pos])
    simp only [Geometry.calculateTangentPoints]
    rw [harg, hsq, if_neg (by norm_num), if_neg (by rw [abs_of_nonneg (by norm_num)]; norm_num)]
    rw [hang, harc]
    rw [show -(Real.pi / 2) + Real.pi / 3 = -(Real.pi / 6) by ring]
    rw [show -(Real.pi / 2) - Real.pi / 3 = -(Real.pi - Real.pi / 6) by ring]
    rw [Real.cos_neg, Real.sin_neg, Real.cos_neg, Real.sin_neg,
      Real.cos_pi_sub, Real.sin_pi_sub, Real.cos_pi_div_six, Real.sin_pi_div_six]
    simp only [List.cons.injEq, Prod.mk.injEq, and_true]
    refine ⟨⟨by ring, by ring⟩, by ring, by ring⟩

/-- C7 witness: the amended theorem applied at anchor `(0, 10)`, center
`(0, 0)`, radius `5` — strictly outside the tolerance band, yielding two
tangent points with the stated distance and perpendicularity properties. -/
theorem c7_tangent_points_witness :
    (Geometry.calculateTangentPoints ((0 : ℝ), (10 : ℝ)) (0, 0) 5).length = 2 ∧
    ∀ q ∈ Geometry.calculateTangentPoints ((0 : ℝ), (10 : ℝ)) (0, 0) 5,
      Geometry.dist q (0, 0) = 5 ∧
      (q.1 - 0) * (q.1 - 0) + (q.2 - 10) * (q.2 - 0) = 0 :=
  (c7_tangent_points (0, 10) (0, 0) 5 (by norm_num)).2.2.1 (by
    unfold Geometry.dist
    simp only
    rw [show ((0 : ℝ) - 0) ^ 2 + ((0 : ℝ) - 10) ^ 2 = 10 ^ 2 by norm_num,
      Real.sqrt_sq (by norm_num : (0 : ℝ) ≤ 10)]
    norm_num)

/-! ## Theorems for C1 (fillet preview construction) -/

lemma jsMod_self_of_lt (a b : ℝ) (hb : 0 < b) (h0 : 0 ≤ a) (h1 : a < b) :
    jsMod a b = a := by
  unfold jsMod jsTrunc
  rw [if_pos (div_nonneg h0 hb.le)]
  have hf : ⌊a / b⌋ = 0 :=
    Int.floor_eq_zero_iff.mpr (Set.mem_Ico.mpr ⟨div_nonneg h0 hb.le, (div_lt_one hb).mpr h1⟩)
  rw [hf]
  norm_num

lemma jsMod_self_of_neg (a b : ℝ) (hb : 0 < b) (h0 : -b < a) (h1 : a < 0) :
    jsMod a b = a := by
  unfold jsMod jsTrunc
  rw [if_neg (not_le.mpr (div_neg_of_neg_of_pos h1 hb))]
  have hf : ⌊-(a / b)⌋ = 0 := by
    refine Int.floor_eq_zero_iff.mpr (Set.mem_Ico.mpr ⟨?_, ?_⟩)
    · exact (neg_pos.mpr (div_neg_of_neg_of_pos h1 hb)).le
    · rw [← neg_div]
      exact (div_lt_one hb).mpr (by linarith)
  rw [hf]
  norm_num

lemma jsMod_sub_of_lt (a b : ℝ) (hb : 0 < b) (h0 : b ≤ a) (h1 : a < 2 * b) :
    jsMod a b = a - b := by
  unfold jsMod jsTrunc
  have h0' : 0 ≤ a / b := div_nonneg (le_trans hb.le h0) hb.le
  rw [if_pos h0']
  have hf : ⌊a / b⌋ = 1 := by
    rw [Int.floor_eq_iff]
    refine ⟨?_, ?_⟩
    · push_cast
      exact (one_le_div hb).mpr h0
    · push_cast
      rw [div_lt_iff hb]
      linarith
  rw [hf]
  push_cast
  ring

lemma fillet_sweep_eval :
    arcSweepAngles (-90 : ℝ) 180 (2, 2) (0 : Pt) 2 = (180, -90) := by
  have hm1 : jsMod (-90 : ℝ) 360 = -90 :=
    jsMod_self_of_neg _ _ (by norm_num) (by norm_num) (by norm_num)
  have hm2 : jsMod (270 : ℝ) 360 = 270 :=
    jsMod_self_of_lt _ _ (by norm_num) (by norm_num) (by norm_num)
  have hm3 : jsMod (180 : ℝ) 360 = 180 :=
    jsMod_self_of_lt _ _ (by norm_num) (by norm_num) (by norm_num)
  have hm4 : jsMod (540 : ℝ) 360 = 180 := by
    rw [jsMod_sub_of_lt _ _ (by norm_num) (by norm_num) (by norm_num)]
    norm_num
  have hc1 : Real.cos ((405 : ℝ) * Real.pi / 180) = Real.sqrt 2 / 2 := by
    rw [show (405 : ℝ) * Real.pi / 180 = Real.pi / 4 + 2 * Real.pi by ring]
    rw [Real.cos_add_two_pi, Real.cos_pi_div_four]
  have hs1 : Real.sin ((405 : ℝ) * Real.pi / 180) = Real.sqrt 2 / 2 := by
    rw [show (405 : ℝ) * Real.pi / 180 = Real.pi / 4 + 2 * Real.pi by ring]
    rw [Real.sin_add_two_pi, Real.sin_pi_div_four]
  have hc2 : Real.cos ((225 : ℝ) * Real.pi / 180) = -(Real.sqrt 2 / 2) := by
    rw [show (225 : ℝ) * Real.pi / 180 = Real.pi / 4 + Real.pi by ring]
    rw [Real.cos_add_pi, Real.cos_pi_div_four]
  have hs2 : Real.sin ((225 : ℝ) * Real.pi / 180) = -(Real.sqrt 2 / 2) := by
    rw [show (225 : ℝ) * Real.pi / 180 = Real.pi / 4 + Real.pi by ring]
    rw [Real.sin_add_pi, Real.sin_pi_div_four]
  simp only [arcSweepAngles]
  norm_num [hm1, hm2, hm3, hm4, hc1, hs1, hc2, hs2, fdist]
  refine Real.sqrt_lt_sqrt (by positivity) ?_
  have h2 : Real.sqrt 2 ^ 2 = 2 := Real.sq_sqrt (by norm_num)
  have h2p : 0 < Real.sqrt 2 := Real.sqrt_pos.mpr (by norm_num)
  nlinarith

lemma fillet_preview_eval :
    showPreview 0 0 10 0 0 0 0 10 2 1 =
      some [Shape.arc 2 2 2 180 (-90), Shape.circle 2 2 3,
            Shape.circle 2 0 3, Shape.circle 0 2 3] := by
  have h100 : Real.sqrt (100 : ℝ) = 10 := by
    rw [show (100 : ℝ) = 10 ^ 2 by norm_num, Real.sqrt_sq (by norm_num : (0:ℝ) ≤ 10)]
  have hix : lineLineInf 0 0 10 0 0 0 0 10 = some ((0 : ℝ), (0 : ℝ)) := by
    unfold lineLineInf
    norm_num
  have hfar1 : farFrom (0 : Pt) ((10 : ℝ), (0 : ℝ)) (0 : Pt) = (10, 0) := by
    unfold farFrom fdist
    norm_num [h100]
  have hfar2 : farFrom (0 : Pt) ((0 : ℝ), (10 : ℝ)) (0 : Pt) = (0, 10) := by
    unfold farFrom fdist
    norm_num [h100]
  have hA1 : jsAtan2 (-2 : ℝ) 0 = -(Real.pi / 2) := by
    unfold jsAtan2
    norm_num
  have hA2 : jsAtan2 (0 : ℝ) (-2) = Real.pi := by
    unfold jsAtan2
    norm_num [Real.arctan_zero]
  have hdeg1 : -(Real.pi / 2 * 180) / Real.pi = -90 := by
    have hpi := Real.pi_ne_zero
    field_simp
    ring
  have hdeg2 : Real.pi * 180 / Real.pi = 180 := by
    have hpi := Real.pi_ne_zero
    field_simp
  simp only [showPreview]
  rw [hix]
  norm_num [hfar1, hfar2, h100, pickNormal, lineLineInf, projectOnLine,
    hA1, hA2, hdeg1, hdeg2, fillet_sweep_eval]

lemma angle225_in_fillet_arc : Geometry.isAngleBetween 225 180 (-90) := by
  have hm225 : jsMod (225 : ℝ) 360 = 225 :=
    jsMod_self_of_lt _ _ (by norm_num) (by norm_num) (by norm_num)
  have hm585 : jsMod (585 : ℝ) 360 = 225 := by
    rw [jsMod_sub_of_lt _ _ (by norm_num) (by norm_num) (by norm_num)]
    norm_num
  have hm180 : jsMod (180 : ℝ) 360 = 180 :=
    jsMod_self_of_lt _ _ (by norm_num) (by norm_num) (by norm_num)
  have hm540 : jsMod (540 : ℝ) 360 = 180 := by
    rw [jsMod_sub_of_lt _ _ (by norm_num) (by norm_num) (by norm_num)]
    norm_num
  have hm90 : jsMod (-90 : ℝ) 360 = -90 :=
    jsMod_self_of_neg _ _ (by norm_num) (by norm_num) (by norm_num)
  have hm270 : jsMod (270 : ℝ) 360 = 270 :=
    jsMod_self_of_lt _ _ (by norm_num) (by norm_num) (by norm_num)
  unfold Geometry.isAngleBetween
  norm_num [hm225, hm585, hm180, hm540, hm90, hm270]

lemma angle45_not_in_fillet_arc : ¬ Geometry.isAngleBetween 45 180 (-90) := by
  have hm45 : jsMod (45 : ℝ) 360 = 45 :=
    jsMod_self_of_lt _ _ (by norm_num) (by norm_num) (by norm_num)
  have hm405 : jsMod (405 : ℝ) 360 = 45 := by
    rw [jsMod_sub_of_lt _ _ (by norm_num) (by norm_num) (by norm_num)]
    norm_num
  have hm180 : jsMod (180 : ℝ) 360 = 180 :=
    jsMod_self_of_lt _ _ (by norm_num) (by norm_num) (by norm_num)
  have hm540 : jsMod (540 : ℝ) 360 = 180 := by
    rw [jsMod_sub_of_lt _ _ (by norm_num) (by norm_num) (by norm_num)]
    norm_num
  have hm90 : jsMod (-90 : ℝ) 360 = -90 :=
    jsMod_self_of_neg _ _ (by norm_num) (by norm_num) (by norm_num)
  have hm270 : jsMod (270 : ℝ) 360 = 270 :=
    jsMod_self_of_lt _ _ (by norm_num) (by norm_num) (by norm_num)
  unfold Geometry.isAngleBetween
  norm_num [hm45, hm405, hm180, hm540, hm90, hm270]

lemma fillet_mid_dist_lt :
    fdist (2 - Real.sqrt 2, 2 - Real.sqrt 2) ((0 : ℝ), (0 : ℝ)) <
      fdist (2 + Real.sqrt 2, 2 + Real.sqrt 2) ((0 : ℝ), (0 : ℝ)) := by
  unfold fdist
  dsimp only
  refine Real.sqrt_lt_sqrt (by positivity) ?_
  have h2 : Real.sqrt 2 ^ 2 = 2 := Real.sq_sqrt (by norm_num)
  have h2p : 0 < Real.sqrt 2 := Real.sqrt_pos.mpr (by norm_num)
  nlinarith

/-- C1: counterexample. On the perpendicular segments (0,0)-(10,0) and
(0,0)-(0,10) with radius 2 and zoom 1, the fillet preview produces the arc
centered at (2,2) from 180 to -90 degrees with tangent points (2,0) and (0,2);
the candidate sweep through the farther midpoint (2+sqrt 2, 2+sqrt 2) sits at
normalized angle 45, which is NOT on the produced arc (its clockwise range
from 180 to 270 contains 225, not 45). So the preview keeps the sweep whose
midpoint is NEARER the picked intersection, refuting the claim that the arc is
drawn through the farther midpoint, away from the corner. -/
theorem c1_fillet_sweep_counterexample :
    showPreview 0 0 10 0 0 0 0 10 2 1 =
      some [Shape.arc 2 2 2 180 (-90), Shape.circle 2 2 3,
            Shape.circle 2 0 3, Shape.circle 0 2 3] ∧
    ¬ Geometry.isAngleBetween 45 180 (-90) :=
  ⟨fillet_preview_eval, angle45_not_in_fillet_arc⟩

/-- C1: amended behavior. In the same concrete scenario the preview arc runs
from 180 to -90 degrees about (2,2); the midpoint angle it contains is 225,
whose midpoint (2-sqrt 2, 2-sqrt 2) is strictly CLOSER to the corner
intersection (0,0) than the other candidate midpoint (2+sqrt 2, 2+sqrt 2):
after the final swap step the kept sweep is the one whose midpoint lies nearer
the intersection, i.e. the arc bulges toward the corner, tangent at (2,0) and
(0,2). -/
theorem c1_fillet_preview :
    showPreview 0 0 10 0 0 0 0 10 2 1 =
      some [Shape.arc 2 2 2 180 (-90), Shape.circle 2 2 3,
            Shape.circle 2 0 3, Shape.circle 0 2 3] ∧
    Geometry.isAngleBetween 225 180 (-90) ∧
    fdist (2 - Real.sqrt 2, 2 - Real.sqrt 2) ((0 : ℝ), (0 : ℝ)) <
      fdist (2 + Real.sqrt 2, 2 + Real.sqrt 2) ((0 : ℝ), (0 : ℝ)) :=
  ⟨fillet_preview_eval, angle225_in_fillet_arc, fillet_mid_dist_lt⟩
